import Mathlib

/-!
Verification development for the UTOL-s/module repository.

Shallow embedding of the server assembly of `fxEcho` (`module.go`,
`registry.go`), of the contribution annotations of `fxEcho` /
`fxSupertoken` / `api_rest`, and of the configuration validation and
connection paths of `fxGorm` (`config.go`, `database.go`, `module.go`).

Conventions of the embedding
* A Go pointer receiver that is mutated becomes explicit state passing.
* The echo instance `*echo.Echo` is represented by the ordered log of the
  API calls made on it and on the routing scopes created from it.
* `echo.MiddlewareFunc` values are opaque to the code under study (they are
  only ever handed to `Use`), so the embedding is parametric in their type.
-/

set_option linter.dupNamespace false
set_option autoImplicit false

namespace FxConfig

/-- The key/value store behind `Accessor` (config.go): `Accessor.String`,
`Accessor.Int` and `Accessor.Bool` return `viper.GetString(key)`,
`viper.GetInt(key)` and `viper.GetBool(key)`; the three fields are those
lookups. -/
structure Accessor where
  GetString : String → String
  GetInt : String → Int
  GetBool : String → Bool

/-- Go struct `Config.Database` (config.go). -/
structure DatabaseSection where
  Host : String
  Port : Int
  User : String
  Password : String
  DBName : String
  SSLMode : String
  deriving DecidableEq, Repr

/-- Go struct `Config` (config.go). -/
structure Config where
  AppName : String
  AppPort : String
  Database : DatabaseSection
  Accessor : Accessor

end FxConfig

namespace FxEcho

/-! ## Data model -/

/-- Value stored under a key of a JSON object written by a handler. -/
inductive JSONValue where
  | str (s : String)
  | time (t : Nat)
  deriving DecidableEq, Repr

/-- The part of `echo.Context` the code under study reads: the clock that
`time.Now().UTC()` samples while the request is served. -/
structure Context where
  now : Nat
  deriving DecidableEq, Repr

/-- What a handler writes with `c.JSON(code, object)`: the status code and
the fields of the JSON object. -/
structure Response where
  status : Nat
  body : List (String × JSONValue)
  deriving DecidableEq, Repr

/-- Go type `echo.HandlerFunc`. -/
abbrev HandlerFunc := Context → Response

/-- Go struct `routeRegistry` (registry.go), the implementation of
`RouteRegistryIf`. -/
structure routeRegistry where
  method : String
  path : String
  handle : HandlerFunc

/-- Go method `(*routeRegistry).Method`. -/
def routeRegistry.Method (r : routeRegistry) : String := r.method

/-- Go method `(*routeRegistry).Path`. -/
def routeRegistry.Path (r : routeRegistry) : String := r.path

/-- Go method `(*routeRegistry).Handle`. -/
def routeRegistry.Handle (r : routeRegistry) (ctx : Context) : Response := r.handle ctx

/-- Go struct `groupRegistry` (registry.go), the implementation of
`GroupRegistryIf`; `children` holds the nested groups. -/
inductive groupRegistry (M : Type) where
  | mk (pfx : String) (routes : List routeRegistry)
      (children : List (groupRegistry M)) (middleware : List M)

/-- Go method `(*groupRegistry).Prefix`. -/
def groupRegistry.Prefix {M : Type} : groupRegistry M → String
  | .mk p _ _ _ => p

/-- Field `routes` of `groupRegistry`. -/
def groupRegistry.routes {M : Type} : groupRegistry M → List routeRegistry
  | .mk _ r _ _ => r

/-- Field `children` of `groupRegistry`. -/
def groupRegistry.children {M : Type} : groupRegistry M → List (groupRegistry M)
  | .mk _ _ c _ => c

/-- Field `middleware` of `groupRegistry`. -/
def groupRegistry.middleware {M : Type} : groupRegistry M → List M
  | .mk _ _ _ m => m

/-- CORS settings handed to `middleware.CORSWithConfig`. -/
structure CORSConfig where
  AllowOrigins : List String
  AllowMethods : List String
  deriving DecidableEq, Repr

/-- A middleware installed on the server: either one of the three values
that `NewEcho` creates itself by calling the echo middleware package, or a
value that came in through `EchoParams.Middlewares`. A closure created
inside `NewEcho` is a different value from anything contributed. -/
inductive Installed (M : Type) where
  | Logger
  | Recover
  | CORSWithConfig (cfg : CORSConfig)
  | contributed (m : M)
  deriving DecidableEq, Repr

/-- Modelled from the spec: the routing scope `*echo.Group` of the echo
library, which is not part of the repository sources. A scope is created
"at `parentPrefix + prefix`" and carries the middlewares applied to it. -/
structure Group (M : Type) where
  pfx : String
  middleware : List M
  deriving DecidableEq, Repr

/-- One call made on the echo instance or on a routing scope created from
it. Calls on a scope record the receiver as it is when the call is made.
Registrations that the library makes on its own behalf are not part of the
log. -/
inductive Call (M : Type) where
  | use (m : Installed M)
  | group (pfx : String)
  | add (method path : String) (h : HandlerFunc)
  | groupUse (g : Group M) (m : M)
  | groupAdd (g : Group M) (method path : String) (h : HandlerFunc)
  | groupGroup (g : Group M) (pfx : String)

/-- Go type `time.Duration`: a signed 64-bit count of nanoseconds. -/
abbrev Duration := Int

/-- Go struct `http.Server`, the fields that `NewEcho` sets. -/
structure HTTPServer where
  Addr : String
  ReadTimeout : Duration
  WriteTimeout : Duration
  IdleTimeout : Duration
  deriving DecidableEq, Repr

/-- The echo instance `*echo.Echo`: the fields `NewEcho` assigns, and the
calls made on the instance, in order. -/
structure Echo (M : Type) where
  HideBanner : Bool
  Server : HTTPServer
  calls : List (Call M)

/-- Modelled from the spec: `echo.New()` of the echo library; a fresh
server on which nothing is installed or registered. -/
def Echo.New {M : Type} : Echo M := ⟨false, ⟨"", 0, 0, 0⟩, []⟩

/-- Modelled from the spec: `(*echo.Echo).Use`, installs a server-wide
middleware. -/
def Echo.Use {M : Type} (e : Echo M) (m : Installed M) : Echo M :=
  { e with calls := e.calls ++ [.use m] }

/-- Modelled from the spec: `(*echo.Echo).Group`, creates a routing scope at
the given prefix directly under the server. -/
def Echo.Group {M : Type} (e : Echo M) (pfx : String) : Group M × Echo M :=
  (⟨pfx, []⟩, { e with calls := e.calls ++ [.group pfx] })

/-- Modelled from the spec: `(*echo.Echo).Add`, registers a top-level
route. -/
def Echo.Add {M : Type} (e : Echo M) (method path : String) (h : HandlerFunc) : Echo M :=
  { e with calls := e.calls ++ [.add method path h] }

/-- Modelled from the spec: `(*echo.Echo).GET`, registers a top-level route
for method GET. -/
def Echo.GET {M : Type} (e : Echo M) (path : String) (h : HandlerFunc) : Echo M :=
  e.Add "GET" path h

/-- Modelled from the spec: `(*echo.Group).Use`, "apply the group's own
middlewares to that scope"; the scope keeps them in application order. -/
def Group.Use {M : Type} (g : Group M) (e : Echo M) (m : M) : Group M × Echo M :=
  (⟨g.pfx, g.middleware ++ [m]⟩, { e with calls := e.calls ++ [.groupUse g m] })

/-- Modelled from the spec: `(*echo.Group).Add`, "register each of the
group's routes under the scope". -/
def Group.Add {M : Type} (g : Group M) (e : Echo M) (method path : String)
    (h : HandlerFunc) : Echo M :=
  { e with calls := e.calls ++ [.groupAdd g method path h] }

/-- Modelled from the spec: `(*echo.Group).Group`, "create a routing scope at
`parentPrefix + prefix`"; the child scope starts with the middlewares of its
parent. -/
def Group.Group {M : Type} (g : Group M) (e : Echo M) (pfx : String) : Group M × Echo M :=
  (⟨g.pfx ++ pfx, g.middleware⟩, { e with calls := e.calls ++ [.groupGroup g pfx] })

/-! ## `groupRegistry.Register` (registry.go) -/

/-- First loop of `Register`: `for _, m := range g.middleware { group.Use(m) }`. -/
def applyMiddleware {M : Type} : List M → Group M → Echo M → Group M × Echo M
  | [], group, e => (group, e)
  | m :: ms, group, e =>
    let (group1, e1) := group.Use e m
    applyMiddleware ms group1 e1

/-- Second loop of `Register`:
`for _, route := range g.routes { group.Add(route.Method(), route.Path(), route.Handle) }`. -/
def registerRoutes {M : Type} : List routeRegistry → Group M → Echo M → Echo M
  | [], _, e => e
  | route :: rs, group, e =>
    registerRoutes rs group (group.Add e route.Method route.Path route.Handle)

mutual
/-- Go method `(*groupRegistry).Register`: apply the middlewares, register
the routes, then register the child groups. -/
def groupRegistry.Register {M : Type} : groupRegistry M → Group M → Echo M → Echo M
  | .mk _ routes children middleware, group, e =>
    let (group1, e1) := applyMiddleware middleware group e
    let e2 := registerRoutes routes group1 e1
    registerChildren children group1 e2
/-- Third loop of `Register`:
`for _, child := range g.children { childGroup := group.Group(child.Prefix()); child.Register(childGroup) }`. -/
def registerChildren {M : Type} : List (groupRegistry M) → Group M → Echo M → Echo M
  | [], _, e => e
  | child :: cs, group, e =>
    let (childGroup, e1) := group.Group e child.Prefix
    registerChildren cs group (child.Register childGroup e1)
end

/-! ## `NewServerConfig` and `NewEcho` (module.go) -/

/-- Wrap-around of a product computed in Go's signed 64-bit `time.Duration`. -/
def wrap64 (x : Int) : Int := (x + 2 ^ 63) % 2 ^ 64 - 2 ^ 63

/-- Go constant `time.Second`, in nanoseconds. -/
def Second : Duration := 1000000000

/-- Go struct `ServerConfig`. -/
structure ServerConfig where
  Host : String
  Port : String
  ReadTimeout : Duration
  WriteTimeout : Duration
  IdleTimeout : Duration
  deriving DecidableEq, Repr

/-- Go function `NewServerConfig`: reads the server settings and fills in the
default of each setting that is empty or zero. -/
def NewServerConfig (config : FxConfig.Config) : Except String ServerConfig :=
  let host := config.Accessor.GetString "server.host"
  let port := config.Accessor.GetString "server.port"
  let readTimeout := wrap64 (config.Accessor.GetInt "server.read_timeout" * Second)
  let writeTimeout := wrap64 (config.Accessor.GetInt "server.write_timeout" * Second)
  let idleTimeout := wrap64 (config.Accessor.GetInt "server.idle_timeout" * Second)
  let host := if host = "" then "0.0.0.0" else host
  let port := if port = "" then "8080" else port
  let readTimeout := if readTimeout = 0 then wrap64 (30 * Second) else readTimeout
  let writeTimeout := if writeTimeout = 0 then wrap64 (30 * Second) else writeTimeout
  let idleTimeout := if idleTimeout = 0 then wrap64 (60 * Second) else idleTimeout
  .ok ⟨host, port, readTimeout, writeTimeout, idleTimeout⟩

/-- Go struct `EchoParams`: the collections and the configuration injected
into `NewEcho`. -/
structure EchoParams (M : Type) where
  Routes : List routeRegistry
  Groups : List (groupRegistry M)
  Config : FxConfig.Config
  Middlewares : List M

/-- The CORS settings of the default stack: every origin, and the methods
GET, HEAD, PUT, PATCH, POST, DELETE. -/
def defaultCORS : CORSConfig :=
  ⟨["*"], ["GET", "HEAD", "PUT", "PATCH", "POST", "DELETE"]⟩

/-- The closure registered at `/health`:
`c.JSON(http.StatusOK, map{"status": "healthy", "time": time.Now().UTC()})`. -/
def healthHandler : HandlerFunc :=
  fun c => ⟨200, [("status", .str "healthy"), ("time", .time c.now)]⟩

/-- Loop `for _, m := range p.Middlewares { e.Use(m) }` of `NewEcho`. -/
def useMiddlewares {M : Type} : List M → Echo M → Echo M
  | [], e => e
  | m :: ms, e => useMiddlewares ms (e.Use (.contributed m))

/-- Loop `for _, group := range p.Groups { g := e.Group(group.Prefix()); group.Register(g) }`
of `NewEcho`. -/
def registerGroups {M : Type} : List (groupRegistry M) → Echo M → Echo M
  | [], e => e
  | group :: gs, e =>
    let (g, e1) := e.Group group.Prefix
    registerGroups gs (group.Register g e1)

/-- Loop `for _, route := range p.Routes { e.Add(route.Method(), route.Path(), route.Handle) }`
of `NewEcho`. -/
def addRoutes {M : Type} : List routeRegistry → Echo M → Echo M
  | [], e => e
  | route :: rs, e => addRoutes rs (e.Add route.Method route.Path route.Handle)

/-- Go function `NewEcho`, up to the value it returns: creates the server,
sets its address and timeouts, installs the middlewares, registers the
groups, the routes and the health endpoint. -/
def NewEcho {M : Type} (p : EchoParams M) : Except String (Echo M) :=
  let e : Echo M := Echo.New
  let e := { e with HideBanner := true }
  match NewServerConfig p.Config with
  | .error err => .error ("failed to create server config: " ++ err)
  | .ok serverConfig =>
    let e := { e with Server :=
      ⟨serverConfig.Host ++ ":" ++ serverConfig.Port, serverConfig.ReadTimeout,
        serverConfig.WriteTimeout, serverConfig.IdleTimeout⟩ }
    let e :=
      if p.Middlewares.length = 0 then
        ((e.Use .Logger).Use .Recover).Use (.CORSWithConfig defaultCORS)
      else
        useMiddlewares p.Middlewares e
    let e := registerGroups p.Groups e
    let e := addRoutes p.Routes e
    let e := e.GET "/health" healthHandler
    .ok e

/-! ## Observations on the server -/

/-- The server-wide middleware that a call installs, if it installs one. -/
def Call.installs {M : Type} : Call M → Option (Installed M)
  | .use m => some m
  | _ => none

/-- The server-wide middlewares, in installation order. -/
def Echo.installed {M : Type} (e : Echo M) : List (Installed M) :=
  e.calls.filterMap Call.installs

/-- A registration in the router: method, full path, handler, and the
middlewares of the scope through which it was registered. -/
structure Route (M : Type) where
  method : String
  path : String
  handler : HandlerFunc
  middleware : List M

/-- Modelled from the spec: the registration that a call causes in the
router of the echo library. A route added on the server is registered at its
own path; a route added through a scope is registered under the scope, at
the scope prefix followed by the route path, behind the scope middlewares. -/
def Call.route {M : Type} : Call M → Option (Route M)
  | .add method path h => some ⟨method, path, h, []⟩
  | .groupAdd g method path h => some ⟨method, g.pfx ++ path, h, g.middleware⟩
  | _ => none

/-- The registrations in the router, in registration order. -/
def Echo.registered {M : Type} (e : Echo M) : List (Route M) :=
  e.calls.filterMap Call.route

end FxEcho

namespace FxEcho

/-! ## The calls made by `Register`, in closed form -/

/-- The calls of the first loop of `Register` on a scope: one `Use` per
middleware, each on the scope as the previous ones left it. -/
def useCalls {M : Type} : Group M → List M → List (Call M)
  | _, [] => []
  | group, m :: ms => .groupUse group m :: useCalls ⟨group.pfx, group.middleware ++ [m]⟩ ms

mutual
/-- The calls that registering a group on a scope makes, in order. -/
def groupRegistry.expectedCalls {M : Type} : groupRegistry M → Group M → List (Call M)
  | .mk _ routes children middleware, group =>
    useCalls group middleware
      ++ routes.map (fun r =>
          Call.groupAdd ⟨group.pfx, group.middleware ++ middleware⟩ r.method r.path r.handle)
      ++ childrenCalls children ⟨group.pfx, group.middleware ++ middleware⟩
/-- The calls that registering a list of child groups under a scope makes. -/
def childrenCalls {M : Type} : List (groupRegistry M) → Group M → List (Call M)
  | [], _ => []
  | c :: cs, group =>
    (Call.groupGroup group c.Prefix
        :: c.expectedCalls ⟨group.pfx ++ c.Prefix, group.middleware⟩)
      ++ childrenCalls cs group
end

mutual
/-- The routes of a group tree, each with the prefixes of the groups it sits
in, from the root group down to the route's own group. The argument lists the
prefixes of the ancestors of the group. -/
def groupRegistry.located {M : Type} :
    groupRegistry M → List String → List (List String × routeRegistry)
  | .mk pfx routes children _, ancestors =>
    routes.map (fun r => (ancestors ++ [pfx], r)) ++ locatedChildren children (ancestors ++ [pfx])
/-- The routes of a list of sibling groups whose ancestors have the given
prefixes. -/
def locatedChildren {M : Type} :
    List (groupRegistry M) → List String → List (List String × routeRegistry)
  | [], _ => []
  | c :: cs, ancestors => c.located ancestors ++ locatedChildren cs ancestors
end

end FxEcho

/-! ## Contributions to the "middlewares" collection -/

namespace FxSupertoken

/-- The two middleware functions of `fxSupertoken/middleware.go`. -/
inductive Middleware where
  | SupertokenMiddleware
  | VerifySession
  deriving DecidableEq, Repr

/-- Go struct `SuperTokensMiddlewareRegistry` (fxSupertoken/module.go), the
implementation of `MiddlewareRegistryIf`. -/
structure SuperTokensMiddlewareRegistry (M : Type) where
  priority : Int
  middleware : M
  deriving DecidableEq, Repr

/-- Go method `(*SuperTokensMiddlewareRegistry).Priority`. -/
def SuperTokensMiddlewareRegistry.Priority {M : Type}
    (s : SuperTokensMiddlewareRegistry M) : Int := s.priority

/-- Go method `(*SuperTokensMiddlewareRegistry).Middleware`. -/
def SuperTokensMiddlewareRegistry.Middleware {M : Type}
    (s : SuperTokensMiddlewareRegistry M) : M := s.middleware

/-- Go function `NewSuperTokensMiddlewareRegistry`. -/
def NewSuperTokensMiddlewareRegistry : SuperTokensMiddlewareRegistry Middleware :=
  ⟨100, .SupertokenMiddleware⟩

/-- Go function `NewVerifySessionMiddlewareRegistry`. -/
def NewVerifySessionMiddlewareRegistry : SuperTokensMiddlewareRegistry Middleware :=
  ⟨200, .VerifySession⟩

end FxSupertoken

namespace Fx

/-- The two interface types named `MiddlewareRegistryIf`: the one declared in
package `FxEcho` (registry.go) and the one declared in package `fxsupertoken`
(module.go). -/
inductive RegistryInterface where
  | fxEcho
  | fxSupertoken
  deriving DecidableEq, Repr

/-- A constructor registered with the container together with its
annotations: the Go type under which its result is provided, the collection
tag of `fx.ResultTags`, and the result. A result provided as
`echo.MiddlewareFunc` is a middleware function; a result provided as a
`MiddlewareRegistryIf` (through `fx.As`, or as the declared return type) is a
registry value. -/
inductive Provided (M : Type) where
  | middlewareFunc (group : String) (m : M)
  | middlewareRegistryIf (iface : RegistryInterface) (group : String)
      (r : FxSupertoken.SuperTokensMiddlewareRegistry M)
  deriving DecidableEq, Repr

/-- Modelled from the spec: resolution of the typed collection "middlewares"
by the Collection Registry (the dependency-injection container, which is not
part of the repository sources) for the field
`Middlewares []echo.MiddlewareFunc` with tag `group:"middlewares"` of
`EchoParams`. The registry holds "typed contribution groups"; the consumer
receives, in registration order, the values provided under the collection name
with the value type of the field, here `echo.MiddlewareFunc`. -/
def resolveMiddlewares {M : Type} (provided : List (Provided M)) : List M :=
  provided.filterMap fun
    | .middlewareFunc group m => if group = "middlewares" then some m else none
    | .middlewareRegistryIf _ _ _ => none

end Fx

namespace FxEcho

/-- Go function `AsMiddleware` of package `FxEcho` (registry.go):
`fx.Annotate(f, fx.As(new(MiddlewareRegistryIf)), fx.ResultTags(...))` with the
result tag `group:"middlewares"`. -/
def AsMiddleware {M : Type} (f : Unit → FxSupertoken.SuperTokensMiddlewareRegistry M) :
    Fx.Provided M :=
  .middlewareRegistryIf .fxEcho "middlewares" (f ())

end FxEcho

namespace FxSupertoken

/-- Go function `AsMiddleware` of package `fxsupertoken` (module.go):
`fx.Annotate(f, fx.As(new(MiddlewareRegistryIf)), fx.ResultTags(...))` with the
result tag `group:"middlewares"`. -/
def AsMiddleware {M : Type} (f : Unit → SuperTokensMiddlewareRegistry M) : Fx.Provided M :=
  .middlewareRegistryIf .fxSupertoken "middlewares" (f ())

/-- Go function `AsSuperTokensMiddleware`. -/
def AsSuperTokensMiddleware : Fx.Provided Middleware :=
  AsMiddleware fun _ => NewSuperTokensMiddlewareRegistry

/-- Go function `AsVerifySessionMiddleware`. -/
def AsVerifySessionMiddleware : Fx.Provided Middleware :=
  AsMiddleware fun _ => NewVerifySessionMiddlewareRegistry

/-- The collection contributions of the module `FxSupertoken`: the two
registry constructors annotated with the result tag `group:"middlewares"`,
provided under their declared return type `MiddlewareRegistryIf`. -/
def FxSupertoken : List (Fx.Provided Middleware) :=
  [ .middlewareRegistryIf .fxSupertoken "middlewares" NewSuperTokensMiddlewareRegistry,
    .middlewareRegistryIf .fxSupertoken "middlewares" NewVerifySessionMiddlewareRegistry ]

end FxSupertoken

namespace ApiRest

/-- The collection contributions of Go function `RegisterAll`
(api_rest/internal/register.go). -/
def RegisterAll : List (Fx.Provided FxSupertoken.Middleware) :=
  [ FxSupertoken.AsSuperTokensMiddleware, FxSupertoken.AsVerifySessionMiddleware ]

/-- The collection contributions of the application composed by Go function
`Bootstrap` (api_rest/internal/bootstrap.go): those of the module
`FxSupertoken`, then those of `RegisterAll`. No option of the composition
contributes to "routes" or "groups". -/
def Bootstrap : List (Fx.Provided FxSupertoken.Middleware) :=
  FxSupertoken.FxSupertoken ++ RegisterAll

/-- The `EchoParams` that the container hands to `NewEcho` in the composition
of `Bootstrap`. -/
def echoParams (config : FxConfig.Config) : FxEcho.EchoParams FxSupertoken.Middleware :=
  { Routes := [], Groups := [], Config := config,
    Middlewares := Fx.resolveMiddlewares Bootstrap }

end ApiRest

/-! ## `fxGorm`: configuration, validation and connection -/

namespace FxGorm

open FxEcho (Duration wrap64 Second)

/-- Go type `DatabaseType`, a string. -/
abbrev DatabaseType := String

/-- Go constant `PostgreSQL`. -/
def PostgreSQL : DatabaseType := "postgres"

/-- Go constant `MySQL`. -/
def MySQL : DatabaseType := "mysql"

/-- Go constant `SQLite`. -/
def SQLite : DatabaseType := "sqlite"

/-- Go constant `SQLServer`. -/
def SQLServer : DatabaseType := "sqlserver"

/-- Go struct `DatabaseConfig` (types.go); `DbType` is the field `Type`. -/
structure DatabaseConfig where
  DbType : DatabaseType
  Host : String
  Port : Int
  User : String
  Password : String
  DBName : String
  SSLMode : String
  Charset : String
  ParseTime : Bool
  Loc : String
  File : String
  deriving DecidableEq, Repr

/-- Go struct `PoolConfig` (types.go). -/
structure PoolConfig where
  MaxIdleConns : Int
  MaxOpenConns : Int
  ConnMaxLifetime : Duration
  ConnMaxIdleTime : Duration
  deriving DecidableEq, Repr

/-- Go struct `LogConfig` (types.go); `Level` is a `logger.LogLevel`, an
integer. -/
structure LogConfig where
  Level : Int
  SlowThreshold : Duration
  Colorful : Bool
  IgnoreRecordNotFoundError : Bool
  deriving DecidableEq, Repr

/-- Go struct `GormConfig` (types.go). -/
structure GormConfig where
  Database : DatabaseConfig
  Pool : PoolConfig
  Log : LogConfig
  Debug : Bool
  deriving DecidableEq, Repr

/-- Go struct `Params` (types.go). -/
structure Params where
  Config : FxConfig.Config

/-- Constant `logger.Info` of the ORM library (`Silent` is 1, then `Error`,
`Warn`, `Info`). -/
def loggerInfo : Int := 4

/-- Go constant `time.Millisecond`, in nanoseconds. -/
def Millisecond : Duration := 1000000

/-- Go constant `time.Minute`, in nanoseconds. -/
def Minute : Duration := 60 * Second

/-- Go constant `time.Hour`, in nanoseconds. -/
def Hour : Duration := 60 * Minute

/-- Go function `NewGormConfig` (config.go). -/
def NewGormConfig (config : FxConfig.Config) : GormConfig :=
  { Database :=
      { DbType := config.Accessor.GetString "database.type"
        Host := config.Database.Host
        Port := config.Database.Port
        User := config.Database.User
        Password := config.Database.Password
        DBName := config.Database.DBName
        SSLMode := config.Database.SSLMode
        Charset := config.Accessor.GetString "database.charset"
        ParseTime := config.Accessor.GetBool "database.parse_time"
        Loc := config.Accessor.GetString "database.loc"
        File := config.Accessor.GetString "database.file" }
    Pool :=
      { MaxIdleConns := config.Accessor.GetInt "database.pool.max_idle_conns"
        MaxOpenConns := config.Accessor.GetInt "database.pool.max_open_conns"
        ConnMaxLifetime :=
          wrap64 (config.Accessor.GetInt "database.pool.conn_max_lifetime" * Second)
        ConnMaxIdleTime :=
          wrap64 (config.Accessor.GetInt "database.pool.conn_max_idle_time" * Second) }
    Log :=
      { Level := config.Accessor.GetInt "database.log.level"
        SlowThreshold :=
          wrap64 (config.Accessor.GetInt "database.log.slow_threshold" * Millisecond)
        Colorful := config.Accessor.GetBool "database.log.colorful"
        IgnoreRecordNotFoundError :=
          config.Accessor.GetBool "database.log.ignore_record_not_found_error" }
    Debug := config.Accessor.GetBool "database.debug" }

/-- Go method `(*GormConfig).SetDefaults` (config.go). -/
def GormConfig.SetDefaults (gc : GormConfig) : GormConfig :=
  let gc := if gc.Log.Level = 0 then { gc with Log := { gc.Log with Level := loggerInfo } } else gc
  let gc := if gc.Log.SlowThreshold = 0 then
    { gc with Log := { gc.Log with SlowThreshold := Second * 5 } } else gc
  let gc := if gc.Pool.MaxIdleConns = 0 then
    { gc with Pool := { gc.Pool with MaxIdleConns := 10 } } else gc
  let gc := if gc.Pool.MaxOpenConns = 0 then
    { gc with Pool := { gc.Pool with MaxOpenConns := 100 } } else gc
  let gc := if gc.Pool.ConnMaxLifetime = 0 then
    { gc with Pool := { gc.Pool with ConnMaxLifetime := Hour } } else gc
  let gc := if gc.Pool.ConnMaxIdleTime = 0 then
    { gc with Pool := { gc.Pool with ConnMaxIdleTime := Minute * 10 } } else gc
  gc

/-- Go method `(*GormConfig).Validate` (config.go): the configuration as the
call leaves it, and the error it returns (`none` for `nil`). -/
def GormConfig.Validate (gc : GormConfig) : GormConfig × Option String :=
  let gc := if gc.Database.DbType = "" then
    { gc with Database := { gc.Database with DbType := PostgreSQL } } else gc
  if gc.Database.DbType = PostgreSQL ∨ gc.Database.DbType = MySQL
      ∨ gc.Database.DbType = SQLServer then
    if gc.Database.Host = "" then
      (gc, some ("host is required for " ++ gc.Database.DbType ++ " database"))
    else if gc.Database.User = "" then
      (gc, some ("user is required for " ++ gc.Database.DbType ++ " database"))
    else if gc.Database.DBName = "" then
      (gc, some ("dbname is required for " ++ gc.Database.DbType ++ " database"))
    else (gc, none)
  else if gc.Database.DbType = SQLite then
    if gc.Database.File = "" then
      (gc, some "file path is required for SQLite database")
    else (gc, none)
  else
    (gc, some ("unsupported database type: " ++ gc.Database.DbType))

/-- Go method `(*GormConfig).buildDSN` (database.go); `%d` prints the port in
decimal. -/
def GormConfig.buildDSN (gc : GormConfig) : Except String String :=
  if gc.Database.DbType = PostgreSQL then
    .ok ("host=" ++ gc.Database.Host ++ " user=" ++ gc.Database.User
      ++ " password=" ++ gc.Database.Password ++ " dbname=" ++ gc.Database.DBName
      ++ " port=" ++ toString gc.Database.Port ++ " sslmode=" ++ gc.Database.SSLMode)
  else if gc.Database.DbType = MySQL then
    let dsn := gc.Database.User ++ ":" ++ gc.Database.Password ++ "@tcp("
      ++ gc.Database.Host ++ ":" ++ toString gc.Database.Port ++ ")/" ++ gc.Database.DBName
    let dsn := if gc.Database.Charset ≠ "" then dsn ++ "?charset=" ++ gc.Database.Charset
      else dsn
    let dsn :=
      if gc.Database.ParseTime then
        if gc.Database.Charset ≠ "" then dsn ++ "&parseTime=true"
        else dsn ++ "?parseTime=true"
      else dsn
    let dsn :=
      if gc.Database.Loc ≠ "" then
        if '?' ∈ dsn.toList then dsn ++ "&loc=" ++ gc.Database.Loc
        else dsn ++ "?loc=" ++ gc.Database.Loc
      else dsn
    .ok dsn
  else if gc.Database.DbType = SQLite then
    if gc.Database.File = "" then .error "SQLite database file path is required"
    else .ok gc.Database.File
  else if gc.Database.DbType = SQLServer then
    .ok ("sqlserver://" ++ gc.Database.User ++ ":" ++ gc.Database.Password ++ "@"
      ++ gc.Database.Host ++ ":" ++ toString gc.Database.Port
      ++ "?database=" ++ gc.Database.DBName)
  else
    .error ("unsupported database type: " ++ gc.Database.DbType)

/-- The ORM and SQL libraries, outside the repository: what `gorm.Open` on
the dialector of a database type and DSN returns (a handle or an error), what
`db.DB()` returns for a handle, and what `sqlDB.Ping()` returns. -/
structure Driver where
  gormOpen : DatabaseType → String → LogConfig → Bool → Except String Nat
  sqlDB : Nat → Except String Nat
  ping : Nat → Option String

/-- The observable steps of a connection attempt, in order. -/
inductive Step where
  | openDatabase (gc : GormConfig)
  | gormOpen (type : DatabaseType) (dsn : String)
  | setPool (sqlDB : Nat) (pool : PoolConfig)
  | ping (sqlDB : Nat)
  deriving DecidableEq, Repr

/-- Go method `(*GormConfig).openDatabase` (database.go): the handle or error
it returns and the steps it takes. -/
def GormConfig.openDatabase (d : Driver) (gc : GormConfig) : Except String Nat × List Step :=
  match gc.buildDSN with
  | .error err => (.error err, [.openDatabase gc])
  | .ok dsn =>
    if gc.Database.DbType = PostgreSQL ∨ gc.Database.DbType = MySQL
        ∨ gc.Database.DbType = SQLite ∨ gc.Database.DbType = SQLServer then
      (d.gormOpen gc.Database.DbType dsn gc.Log gc.Debug,
        [.openDatabase gc, .gormOpen gc.Database.DbType dsn])
    else
      (.error ("unsupported database type: " ++ gc.Database.DbType), [.openDatabase gc])

/-- Go method `(*GormConfig).configureConnectionPool` (module.go): the
configuration as the call leaves it, the error it returns and the steps it
takes. -/
def GormConfig.configureConnectionPool (d : Driver) (gc : GormConfig) (db : Nat) :
    GormConfig × Option String × List Step :=
  match d.sqlDB db with
  | .error err => (gc, some err, [])
  | .ok sqlDB =>
    let gc := if gc.Pool.MaxIdleConns = 0 then
      { gc with Pool := { gc.Pool with MaxIdleConns := 10 } } else gc
    let gc := if gc.Pool.MaxOpenConns = 0 then
      { gc with Pool := { gc.Pool with MaxOpenConns := 100 } } else gc
    let gc := if gc.Pool.ConnMaxLifetime = 0 then
      { gc with Pool := { gc.Pool with ConnMaxLifetime := Hour } } else gc
    let gc := if gc.Pool.ConnMaxIdleTime = 0 then
      { gc with Pool := { gc.Pool with ConnMaxIdleTime := Minute * 10 } } else gc
    (gc, none, [.setPool sqlDB gc.Pool])

/-- Go function `NewGormDB` (module.go): the handle or error it returns and
the steps it takes. -/
def NewGormDB (d : Driver) (p : Params) : Except String Nat × List Step :=
  let gormConfig := NewGormConfig p.Config
  let gormConfig := if gormConfig.Log.Level = 0 then
    { gormConfig with Log := { gormConfig.Log with Level := loggerInfo } } else gormConfig
  let gormConfig := if gormConfig.Log.SlowThreshold = 0 then
    { gormConfig with Log := { gormConfig.Log with SlowThreshold := Second * 5 } }
    else gormConfig
  match gormConfig.openDatabase d with
  | (.error err, steps) => (.error ("failed to open database: " ++ err), steps)
  | (.ok db, steps) =>
    match gormConfig.configureConnectionPool d db with
    | (_, some err, steps2) =>
      (.error ("failed to configure connection pool: " ++ err), steps ++ steps2)
    | (_, none, steps2) =>
      match d.sqlDB db with
      | .error err => (.error ("failed to get underlying sql.DB: " ++ err), steps ++ steps2)
      | .ok sqlDB =>
        match d.ping sqlDB with
        | some err =>
          (.error ("failed to ping database: " ++ err), steps ++ steps2 ++ [.ping sqlDB])
        | none => (.ok db, steps ++ steps2 ++ [.ping sqlDB])

/-- Go struct `DatabaseManager` (types.go); `db` is `none` for a nil
handle. -/
structure DatabaseManager where
  config : GormConfig
  db : Option Nat
  deriving DecidableEq, Repr

/-- Go function `NewDatabaseManager` (types.go). -/
def NewDatabaseManager (config : GormConfig) : DatabaseManager := ⟨config, none⟩

/-- Go method `(*DatabaseManager).Connect` (database.go): the manager as the
call leaves it, the error it returns and the steps it takes. -/
def DatabaseManager.Connect (d : Driver) (dm : DatabaseManager) :
    DatabaseManager × Option String × List Step :=
  match dm.config.Validate with
  | (config, some err) =>
    ({ dm with config := config }, some ("configuration validation failed: " ++ err), [])
  | (config, none) =>
    let config := config.SetDefaults
    let dm := { dm with config := config }
    match config.openDatabase d with
    | (.error err, steps) => (dm, some ("failed to open database: " ++ err), steps)
    | (.ok db, steps) =>
      match config.configureConnectionPool d db with
      | (config, some err, steps2) =>
        ({ dm with config := config },
          some ("failed to configure connection pool: " ++ err), steps ++ steps2)
      | (config, none, steps2) =>
        let dm := { dm with config := config }
        match d.sqlDB db with
        | .error err =>
          (dm, some ("failed to get underlying sql.DB: " ++ err), steps ++ steps2)
        | .ok sqlDB =>
          match d.ping sqlDB with
          | some err =>
            (dm, some ("failed to ping database: " ++ err), steps ++ steps2 ++ [.ping sqlDB])
          | none => ({ dm with db := some db }, none, steps ++ steps2 ++ [.ping sqlDB])

end FxGorm

/-! ## Route and group builders (registry.go) -/

namespace FxEcho

/-- Go struct `RouteBuilder`. -/
structure RouteBuilder where
  method : String
  path : String
  handle : HandlerFunc

/-- Go function `NewRoute`. -/
def NewRoute (method path : String) (handle : HandlerFunc) : RouteBuilder :=
  ⟨method, path, handle⟩

/-- Go function `GET`. -/
def GET (path : String) (handle : HandlerFunc) : RouteBuilder := NewRoute "GET" path handle

/-- Go function `POST`. -/
def POST (path : String) (handle : HandlerFunc) : RouteBuilder := NewRoute "POST" path handle

/-- Go function `PUT`. -/
def PUT (path : String) (handle : HandlerFunc) : RouteBuilder := NewRoute "PUT" path handle

/-- Go function `DELETE`. -/
def DELETE (path : String) (handle : HandlerFunc) : RouteBuilder :=
  NewRoute "DELETE" path handle

/-- Go function `PATCH`. -/
def PATCH (path : String) (handle : HandlerFunc) : RouteBuilder := NewRoute "PATCH" path handle

/-- Go method `(*RouteBuilder).Build`. -/
def RouteBuilder.Build (rb : RouteBuilder) : routeRegistry :=
  ⟨rb.method, rb.path, rb.handle⟩

/-- Go struct `GroupBuilder`. -/
structure GroupBuilder (M : Type) where
  pfx : String
  routes : List routeRegistry
  children : List (groupRegistry M)
  middleware : List M

/-- Go function `NewGroup`: a builder with the prefix and three empty
sequences. -/
def NewGroup {M : Type} (pfx : String) : GroupBuilder M := ⟨pfx, [], [], []⟩

/-- Go method `(*GroupBuilder).AddRoute`: `gb.routes = append(gb.routes, route)`. -/
def GroupBuilder.AddRoute {M : Type} (gb : GroupBuilder M) (route : routeRegistry) :
    GroupBuilder M :=
  { gb with routes := gb.routes ++ [route] }

/-- Go method `(*GroupBuilder).AddGroup`: `gb.children = append(gb.children, group)`. -/
def GroupBuilder.AddGroup {M : Type} (gb : GroupBuilder M) (group : groupRegistry M) :
    GroupBuilder M :=
  { gb with children := gb.children ++ [group] }

/-- Go method `(*GroupBuilder).Use`, variadic:
`gb.middleware = append(gb.middleware, middleware...)`. -/
def GroupBuilder.Use {M : Type} (gb : GroupBuilder M) (middleware : List M) : GroupBuilder M :=
  { gb with middleware := gb.middleware ++ middleware }

/-- Go method `(*GroupBuilder).Build`. -/
def GroupBuilder.Build {M : Type} (gb : GroupBuilder M) : groupRegistry M :=
  .mk gb.pfx gb.routes gb.children gb.middleware

/-- One call on a group builder before `Build`, with its arguments. -/
inductive BuilderCall (M : Type) where
  | AddRoute (route : routeRegistry)
  | AddGroup (group : groupRegistry M)
  | Use (middleware : List M)

/-- The builder after one call. -/
def GroupBuilder.call {M : Type} (gb : GroupBuilder M) : BuilderCall M → GroupBuilder M
  | .AddRoute route => gb.AddRoute route
  | .AddGroup group => gb.AddGroup group
  | .Use middleware => gb.Use middleware

/-- The argument of a call, if the call is `AddRoute`. -/
def BuilderCall.route? {M : Type} : BuilderCall M → Option routeRegistry
  | .AddRoute route => some route
  | _ => none

/-- The argument of a call, if the call is `AddGroup`. -/
def BuilderCall.group? {M : Type} : BuilderCall M → Option (groupRegistry M)
  | .AddGroup group => some group
  | _ => none

/-- The arguments of a call, if the call is `Use`; no middleware otherwise. -/
def BuilderCall.middlewares {M : Type} : BuilderCall M → List M
  | .Use middleware => middleware
  | _ => []

mutual
/-- The routes of a group tree, each with the prefixes of the groups it sits
in (root group first, own group last) and the middlewares declared on those
same groups, in that order. The arguments are the prefixes of the ancestors
and the middlewares declared on the ancestors. -/
def groupRegistry.scoped {M : Type} :
    groupRegistry M → List String → List M → List (List String × List M × routeRegistry)
  | .mk pfx routes children middleware, ancestors, inherited =>
    routes.map (fun r => (ancestors ++ [pfx], inherited ++ middleware, r))
      ++ scopedChildren children (ancestors ++ [pfx]) (inherited ++ middleware)
/-- The routes of sibling groups under the given ancestors. -/
def scopedChildren {M : Type} :
    List (groupRegistry M) → List String → List M → List (List String × List M × routeRegistry)
  | [], _, _ => []
  | c :: cs, ancestors, inherited =>
    c.scoped ancestors inherited ++ scopedChildren cs ancestors inherited
end

end FxEcho

/-! ## Lifecycle hooks of `NewEcho` (module.go) -/

namespace Golang

/-- Go type `context.Context`, the part the hooks depend on: the deadline, in
nanoseconds on the clock of the process, if there is one. -/
structure Context where
  deadline : Option Int
  deriving DecidableEq, Repr

/-- Modelled from the spec: `context.WithTimeout` of the Go standard library,
which is not part of the repository sources and gives the "bounded deadline"
of the drain. Called at time `now`, the derived context expires at `now` plus
the timeout, or at the deadline of the parent when that is earlier. -/
def WithTimeout (now : Int) (parent : Context) (timeout : Int) : Context :=
  match parent.deadline with
  | some d => ⟨some (if d < now + timeout then d else now + timeout)⟩
  | none => ⟨some (now + timeout)⟩

/-- Go type `error`, as far as the hooks distinguish values: the sentinel
`http.ErrServerClosed`, or any other error with its message. -/
inductive Error where
  | ErrServerClosed
  | other (msg : String)
  deriving DecidableEq, Repr

end Golang

namespace FxEcho

/-- An entry written through `p.Logger`. -/
inductive LogEntry where
  | Info (msg : String) (fields : List (String × String))
  | Error (msg : String) (err : Golang.Error)
  deriving DecidableEq, Repr

/-- What a call of the `OnStart` hook does: the entries it logs before it
returns, the task it starts with `go`, given as what that task logs for each
value returned by `e.Start` (`none` for `nil`), and the error the hook
returns (`none` for `nil`). -/
structure StartOutcome where
  logged : List LogEntry
  background : Option Golang.Error → List LogEntry
  result : Option Golang.Error

/-- The `OnStart` closure of the hook appended by `NewEcho`: logs the
address, starts the listener in a goroutine that logs an error of `e.Start`
other than `http.ErrServerClosed`, and returns `nil`. -/
def OnStart {M : Type} (e : Echo M) (serverConfig : ServerConfig) (_ctx : Golang.Context) :
    StartOutcome :=
  { logged := [.Info "starting Echo server"
      [("address", e.Server.Addr), ("host", serverConfig.Host), ("port", serverConfig.Port)]]
    background := fun started =>
      match started with
      | some err =>
        if err ≠ Golang.Error.ErrServerClosed then [.Error "failed to start Echo server" err]
        else []
      | none => []
    result := none }

/-- What a call of the `OnStop` hook does: the entries it logs, the context
it hands to `e.Shutdown`, and the error it returns (`none` for `nil`). -/
structure StopOutcome where
  logged : List LogEntry
  shutdownCtx : Golang.Context
  result : Option Golang.Error
  deriving DecidableEq, Repr

/-- The `OnStop` closure of the hook appended by `NewEcho`. `shutdown` is
what `e.Shutdown` returns for a context and `now` the clock when
`context.WithTimeout(ctx, 30*time.Second)` is evaluated. -/
def OnStop (shutdown : Golang.Context → Option Golang.Error) (now : Int)
    (ctx : Golang.Context) : StopOutcome :=
  let shutdownCtx := Golang.WithTimeout now ctx (30 * Second)
  match shutdown shutdownCtx with
  | some err =>
    { logged := [.Info "shutting down Echo server" [],
        .Error "error during server shutdown" err]
      shutdownCtx := shutdownCtx
      result := some err }
  | none =>
    { logged := [.Info "shutting down Echo server" [],
        .Info "Echo server shutdown completed" []]
      shutdownCtx := shutdownCtx
      result := none }

/-- Go struct `fx.Hook`, as filled in by `NewEcho`. -/
structure Hook where
  OnStart : Golang.Context → StartOutcome
  OnStop : (Golang.Context → Option Golang.Error) → Int → Golang.Context → StopOutcome

/-- The hook that `NewEcho` hands to `p.Lifecycle.Append`: its closures
capture the server `e` built by `NewEcho` and the `serverConfig`. -/
def NewEchoHook {M : Type} (p : EchoParams M) : Except String Hook :=
  match NewServerConfig p.Config, NewEcho p with
  | .ok serverConfig, .ok e => .ok ⟨OnStart e serverConfig, OnStop⟩
  | .error err, _ => .error ("failed to create server config: " ++ err)
  | _, .error err => .error err

end FxEcho

/-! ## Pool configuration of the database manager (pool.go) -/

namespace FxGorm

/-- Go struct `sql.DBStats`, the counters of the pool. -/
structure DBStats where
  MaxOpenConnections : Int
  OpenConnections : Int
  InUse : Int
  Idle : Int
  deriving DecidableEq, Repr

/-- Go method `(*DatabaseManager).GetPoolStats`; `stats` is what
`sqlDB.Stats()` returns for a handle. -/
def DatabaseManager.GetPoolStats (d : Driver) (stats : Nat → DBStats) (dm : DatabaseManager) :
    Except String DBStats :=
  match dm.db with
  | none => .error "database not connected"
  | some db =>
    match d.sqlDB db with
    | .error err => .error err
    | .ok sqlDB => .ok (stats sqlDB)

/-- Go method `(*DatabaseManager).SetPoolConfig`: the manager as the call
leaves it, the error it returns and the steps it takes. -/
def DatabaseManager.SetPoolConfig (d : Driver) (dm : DatabaseManager) (config : PoolConfig) :
    DatabaseManager × Option String × List Step :=
  match dm.db with
  | none => (dm, some "database not connected", [])
  | some db =>
    match d.sqlDB db with
    | .error err => (dm, some err, [])
    | .ok sqlDB =>
      ({ dm with config := { dm.config with Pool := config } }, none,
        [.setPool sqlDB config])

/-- Go method `(*DatabaseManager).GetPoolConfig`. -/
def DatabaseManager.GetPoolConfig (dm : DatabaseManager) : PoolConfig := dm.config.Pool

end FxGorm

/-! ## `NewSuperTokensConfig` (fxSupertoken/module.go) -/

namespace FxSupertoken

/-- Go struct `SuperTokensConfig`. -/
structure SuperTokensConfig where
  ConnectionURI : String
  ConnectionAPIKey : String
  EmailHost : String
  EmailPassword : String
  Email : String
  APIBasePath : String
  WebBasePath : String
  AppName : String
  APIDomain : String
  WebsiteDomain : String
  deriving DecidableEq, Repr

/-- Go function `NewSuperTokensConfig`. -/
def NewSuperTokensConfig (config : FxConfig.Config) : Except String SuperTokensConfig :=
  let c : SuperTokensConfig :=
    { ConnectionURI := config.Accessor.GetString "supertokens.connection_uri"
      ConnectionAPIKey := config.Accessor.GetString "supertokens.connection_api_key"
      EmailHost := config.Accessor.GetString "supertokens.email.host"
      EmailPassword := config.Accessor.GetString "supertokens.email.password"
      Email := config.Accessor.GetString "supertokens.email"
      APIBasePath := config.Accessor.GetString "supertokens.api_base_path"
      WebBasePath := config.Accessor.GetString "supertokens.web_base_path"
      AppName := config.Accessor.GetString "supertokens.app_name"
      APIDomain := config.Accessor.GetString "supertokens.api_domain"
      WebsiteDomain := config.Accessor.GetString "supertokens.website_domain" }
  let c := if c.APIBasePath = "" then { c with APIBasePath := "/api/auth" } else c
  let c := if c.WebBasePath = "" then { c with WebBasePath := "/api/auth" } else c
  let c := if c.AppName = "" then { c with AppName := "YourApp" } else c
  let c := if c.APIDomain = "" then { c with APIDomain := "http://localhost:8080" } else c
  let c := if c.WebsiteDomain = "" then { c with WebsiteDomain := "http://localhost:3000" }
    else c
  .ok c

end FxSupertoken

/-! ## `Config.PostgresDSN` (fxConfig/config.go) and the defaulting of `NewGormDB` -/

namespace FxConfig

/-- Go method `(*Config).PostgresDSN`; `fmt.Sprintf("%d", port)` prints the
port in decimal. -/
def Config.PostgresDSN (c : Config) : String :=
  "host=" ++ c.Database.Host ++
    " user=" ++ c.Database.User ++
    " password=" ++ c.Database.Password ++
    " dbname=" ++ c.Database.DBName ++
    " port=" ++ toString c.Database.Port ++
    " sslmode=" ++ c.Database.SSLMode

end FxConfig

namespace FxGorm

/-- The block "Set default values for unconfigured settings" of `NewGormDB`
(module.go): the two tests on `gormConfig.Log` that precede `openDatabase`. -/
def NewGormDB.logDefaults (gormConfig : GormConfig) : GormConfig :=
  let gormConfig := if gormConfig.Log.Level = 0 then
    { gormConfig with Log := { gormConfig.Log with Level := loggerInfo } } else gormConfig
  let gormConfig := if gormConfig.Log.SlowThreshold = 0 then
    { gormConfig with Log := { gormConfig.Log with SlowThreshold := FxEcho.Second * 5 } }
    else gormConfig
  gormConfig

/-- The query parameters that a MySQL configuration asks for, in the order
charset, parseTime, loc. -/
def mysqlParameters (gc : GormConfig) : List String :=
  (if gc.Database.Charset ≠ "" then ["charset=" ++ gc.Database.Charset] else [])
    ++ (if gc.Database.ParseTime then ["parseTime=true"] else [])
    ++ (if gc.Database.Loc ≠ "" then ["loc=" ++ gc.Database.Loc] else [])

/-- The base `user:password@tcp(host:port)/dbname` of a MySQL DSN. -/
def mysqlBase (gc : GormConfig) : String :=
  gc.Database.User ++ ":" ++ gc.Database.Password ++ "@tcp("
    ++ gc.Database.Host ++ ":" ++ toString gc.Database.Port ++ ")/" ++ gc.Database.DBName

/-- A base followed by its parameters: the first introduced by `?`, each
later one by `&`. -/
def withParameters (base : String) : List String → String
  | [] => base
  | p :: ps => ps.foldl (fun dsn q => dsn ++ "&" ++ q) (base ++ "?" ++ p)

end FxGorm

/-! ## The container: collections and lifecycle -/

namespace Fx

/-- Go struct `fx.Hook` of a component: what its `OnStart` and `OnStop`
return for a context (`none` for `nil`). -/
structure LifecycleHook where
  OnStart : Golang.Context → Option Golang.Error
  OnStop : Golang.Context → Option Golang.Error

/-- An invocation of a lifecycle hook; components are numbered by their
position in construction order. -/
inductive LifecycleCall where
  | OnStart (component : Nat)
  | OnStop (component : Nat)
  deriving DecidableEq, Repr

/-- Modelled from the spec: the start loop of the Lifecycle Container
(section 4.2), which is not part of the repository sources. "For each
component with an `OnStart` hook, invokes it in construction order; if any
`OnStart` fails, the container aborts and unwinds: it invokes `OnStop` for
every already-started component in reverse order before surfacing the
original error." `index` numbers the next component and `started` lists the
components started so far, most recent first. -/
def startFrom (ctx : Golang.Context) :
    Nat → List LifecycleHook → List (Nat × LifecycleHook) →
      Option Golang.Error × List LifecycleCall
  | _, [], _ => (none, [])
  | index, hook :: hooks, started =>
    match hook.OnStart ctx with
    | some err =>
      (some err, .OnStart index :: started.map (fun x => LifecycleCall.OnStop x.1))
    | none =>
      let (result, calls) := startFrom ctx (index + 1) hooks ((index, hook) :: started)
      (result, .OnStart index :: calls)

/-- Modelled from the spec: `Start(ctx)` of the Lifecycle Container on the
hooks of the application, in construction order: the error it returns and
the hook invocations it makes, in order. -/
def Start (hooks : List LifecycleHook) (ctx : Golang.Context) :
    Option Golang.Error × List LifecycleCall :=
  startFrom ctx 0 hooks []

end Fx

namespace Golang

/-- Go function `context.Background()`: a context without deadline. -/
def Background : Context := ⟨none⟩

end Golang

/-! ## Start and stop phases of `serve` (api_rest/cmd/serve.go) -/

namespace ApiRest

/-- How the start phase of `serve` ends: `log.Fatal` with the start error, or
the application is running. -/
inductive ServeStart where
  | fatal (msg : String) (err : Golang.Error)
  | running
  deriving DecidableEq, Repr

/-- The start phase of `serve`: `app.Start(context.Background())` on the
hooks of the application, and `log.Fatal("Failed to start application:", err)`
when it returns an error. -/
def serveStart (hooks : List Fx.LifecycleHook) : ServeStart × List Fx.LifecycleCall :=
  match Fx.Start hooks Golang.Background with
  | (some err, calls) => (.fatal "Failed to start application:" err, calls)
  | (none, calls) => (.running, calls)

/-- The context that `serve` hands to `app.Stop`:
`context.WithTimeout(ctx, 30)` on the background context, evaluated at time
`now`. The second argument is a `time.Duration`, a count of nanoseconds. -/
def stopContext (now : Int) : Golang.Context :=
  Golang.WithTimeout now Golang.Background 30

end ApiRest

/-! ## `SupertokenMiddleware` (fxSupertoken/middleware.go) -/

namespace FxSupertoken

/-- The session container returned by `session.GetSession`. -/
structure Session where
  handle : String
  deriving DecidableEq, Repr

/-- The part of `echo.Context` that `SupertokenMiddleware` uses: the request
and the values stored with `c.Set`. -/
structure Context where
  request : String
  values : List (String × Session)
  deriving DecidableEq, Repr

/-- Go method `echo.Context.Set`. -/
def Context.Set (c : Context) (key : String) (val : Session) : Context :=
  { c with values := (key, val) :: c.values }

/-- Go method `echo.Context.Get`: the value stored last under the key. -/
def Context.Get (c : Context) (key : String) : Option Session := c.values.lookup key

/-- What a handler does with a request: the response it writes, if any, and
the error it returns (`none` for `nil`). -/
structure HandlerResult where
  response : Option FxEcho.Response
  err : Option Golang.Error
  deriving DecidableEq, Repr

/-- What the handler returned by a middleware does with a request: the
contexts with which it invokes `next`, in order, and its own result. -/
structure MiddlewareResult where
  invoked : List Context
  result : HandlerResult
  deriving DecidableEq, Repr

/-- Go function `SupertokenMiddleware`, applied to `next` and then to a
context; `getSession` is what `session.GetSession(c.Request(), c.Response(),
nil)` returns for the request. -/
def SupertokenMiddleware (getSession : String → Except Golang.Error Session)
    (next : Context → HandlerResult) (c : Context) : MiddlewareResult :=
  match getSession c.request with
  | .error _ => ⟨[], ⟨some ⟨401, [("error", .str "unauthorized")]⟩, none⟩⟩
  | .ok sess =>
    let c := c.Set "supertokensSession" sess
    ⟨[c], next c⟩

end FxSupertoken

/-! ## The user service (api_rest/internal) -/

namespace ApiRest

/-- Go struct `model.User`; times are nanoseconds, `DeletedAt` is unset for
a user that is not deleted. -/
structure User where
  ID : Nat
  Email : String
  Username : String
  Password : String
  FirstName : String
  LastName : String
  Role : String
  IsActive : Bool
  CreatedAt : Int
  UpdatedAt : Int
  DeletedAt : Option Int
  deriving DecidableEq, Repr

/-- An error of the ORM: the sentinel `gorm.ErrRecordNotFound`, or any other
error with its message. -/
inductive DBError where
  | ErrRecordNotFound
  | other (msg : String)
  deriving DecidableEq, Repr

/-- The database behind `UserRepository`, outside the repository: the result
of the two `First` queries and of `Create` (the stored user, or the error). -/
structure Database where
  firstByEmail : String → Except DBError User
  firstByUsername : String → Except DBError User
  create : User → Except DBError User

/-- Go method `(*UserRepository).Create`; it returns the error of the ORM,
here with the user as stored when there is none. -/
def UserRepository.Create (db : Database) (user : User) : Except String User :=
  match db.create user with
  | .ok stored => .ok stored
  | .error .ErrRecordNotFound => .error "record not found"
  | .error (.other msg) => .error msg

/-- Go method `(*UserRepository).GetByEmail`. -/
def UserRepository.GetByEmail (db : Database) (email : String) : Except String User :=
  match db.firstByEmail email with
  | .ok user => .ok user
  | .error .ErrRecordNotFound => .error ("user not found with email: " ++ email)
  | .error (.other msg) => .error msg

/-- Go method `(*UserRepository).GetByUsername`. -/
def UserRepository.GetByUsername (db : Database) (username : String) : Except String User :=
  match db.firstByUsername username with
  | .ok user => .ok user
  | .error .ErrRecordNotFound => .error ("user not found with username: " ++ username)
  | .error (.other msg) => .error msg

/-- Go method `(*UserService).CreateUser`: what it returns and the users it
hands to the repository's `Create`, in order. `createdAt` and `updatedAt` are
the two readings of `time.Now()`. -/
def UserService.CreateUser (db : Database) (createdAt updatedAt : Int)
    (email username password firstName lastName : String) :
    Except String User × List User :=
  match UserRepository.GetByEmail db email with
  | .ok _ => (.error ("user with email " ++ email ++ " already exists"), [])
  | .error _ =>
    match UserRepository.GetByUsername db username with
    | .ok _ => (.error ("user with username " ++ username ++ " already exists"), [])
    | .error _ =>
      let user : User :=
        { ID := 0, Email := email, Username := username, Password := password
          FirstName := firstName, LastName := lastName, Role := "user", IsActive := true
          CreatedAt := createdAt, UpdatedAt := updatedAt, DeletedAt := none }
      match UserRepository.Create db user with
      | .error err => (.error err, [user])
      | .ok stored => (.ok stored, [user])

/-- Go method `(*UserService).ValidateUserCredentials`; `compare` is what
`bcrypt.CompareHashAndPassword(hash, password)` returns (`none` for `nil`). -/
def UserService.ValidateUserCredentials (db : Database)
    (compare : String → String → Option String) (email password : String) :
    Except String User :=
  match UserRepository.GetByEmail db email with
  | .error _ => .error "invalid credentials"
  | .ok user =>
    if !user.IsActive then .error "user account is deactivated"
    else
      match compare user.Password password with
      | some _ => .error "invalid credentials"
      | none => .ok user

end ApiRest

/-! ## Concrete inputs used by the examples below -/

namespace Examples

open FxEcho

/-- A configuration in which no key is set. -/
def emptyConfig : FxConfig.Config :=
  ⟨"", "", ⟨"", 0, "", "", "", ""⟩, ⟨fun _ => "", fun _ => 0, fun _ => false⟩⟩

/-- A handler answering 204 with an empty object. -/
def noContent : HandlerFunc := fun _ => ⟨204, []⟩

/-- No contribution at all. -/
def noContribution : EchoParams Nat := ⟨[], [], emptyConfig, []⟩

/-- One contributed middleware, nothing else. -/
def oneMiddleware : EchoParams Nat := ⟨[], [], emptyConfig, [7]⟩

/-- The group `/api` holding the nested group `/v1` holding the route
`GET /users`. -/
def apiGroup (M : Type) (h : HandlerFunc) : groupRegistry M :=
  .mk "/api" [] [.mk "/v1" [⟨"GET", "/users", h⟩] [] []] []

/-- A group with two middlewares, two routes and two nested groups, and the
scope it is registered on. -/
def busyGroup : groupRegistry Nat :=
  .mk "/api" [⟨"GET", "/a", noContent⟩, ⟨"POST", "/b", noContent⟩]
    [.mk "/v1" [⟨"GET", "/users", noContent⟩] [] [3], .mk "/v2" [] [] []] [1, 2]

/-- A contribution of a group, of a top-level route that is itself
`GET /health`, and of a middleware. -/
def withOwnHealth : EchoParams Nat :=
  ⟨[⟨"GET", "/health", noContent⟩], [busyGroup], emptyConfig, [7]⟩

/-- Session verification (priority 200) registered before authentication
(priority 100). -/
def verifyFirst : List (FxSupertoken.SuperTokensMiddlewareRegistry FxSupertoken.Middleware) :=
  [FxSupertoken.NewVerifySessionMiddlewareRegistry, FxSupertoken.NewSuperTokensMiddlewareRegistry]

/-- The server parameters whose middlewares are those of `verifyFirst`, in
that order. -/
def verifyFirstParams : EchoParams FxSupertoken.Middleware :=
  ⟨[], [], emptyConfig, verifyFirst.map (·.Middleware)⟩

/-- A configuration that selects postgres and sets nothing else: host, user
and database name are empty. -/
def postgresOnly : FxConfig.Config :=
  ⟨"", "", ⟨"", 0, "", "", "", ""⟩,
    ⟨fun key => if key = "database.type" then "postgres" else "", fun _ => 0, fun _ => false⟩⟩

/-- A driver for one MySQL server, listening on localhost:3306 and admitting
`root` with the password `secret`: `gorm.Open` returns the handle 1 for a
MySQL DSN addressed to that server, with the database `app` or with no
database preselected (the DSN ends in `/`, which the MySQL driver accepts),
and an error for every other type or DSN; on that handle `db.DB()` and `Ping`
succeed. -/
def acceptingDriver : FxGorm.Driver :=
  ⟨fun type dsn _ _ =>
      if type = "mysql" ∧ (dsn = "root:secret@tcp(localhost:3306)/"
          ∨ dsn = "root:secret@tcp(localhost:3306)/app") then .ok 1
      else .error "dial tcp: connect: connection refused",
    fun _ => .ok 2, fun _ => none⟩

/-- A configuration that selects mysql on localhost:3306 with user `root` and
password `secret`, and names no database. -/
def mysqlNoDatabase : FxConfig.Config :=
  ⟨"", "", ⟨"localhost", 3306, "root", "secret", "", ""⟩,
    ⟨fun key => if key = "database.type" then "mysql" else "", fun _ => 0, fun _ => false⟩⟩

/-- A manager, not yet connected, for the mysql configuration without
database name. -/
def managerNoDatabase : FxGorm.DatabaseManager :=
  FxGorm.NewDatabaseManager (FxGorm.NewGormConfig mysqlNoDatabase)

/-- A manager, not yet connected, for a postgres configuration without
host. -/
def managerWithoutHost : FxGorm.DatabaseManager :=
  FxGorm.NewDatabaseManager (FxGorm.NewGormConfig postgresOnly)

/-- A configuration whose only key is `server.read_timeout`, set to `2^55`
seconds, a value of Go type `int`. -/
def hugeReadTimeout : FxConfig.Config :=
  ⟨"", "", ⟨"", 0, "", "", "", ""⟩,
    ⟨fun _ => "", fun key => if key = "server.read_timeout" then 36028797018963968 else 0,
      fun _ => false⟩⟩

/-- A configuration with host, port and the three timeouts set to 10, 20 and
0 seconds. -/
def configuredServer : FxConfig.Config :=
  ⟨"", "", ⟨"", 0, "", "", "", ""⟩,
    ⟨fun key => if key = "server.host" then "127.0.0.1" else
        if key = "server.port" then "9000" else "",
      fun key => if key = "server.read_timeout" then 10 else
        if key = "server.write_timeout" then 20 else 0,
      fun _ => false⟩⟩

/-- Pool statistics that are all zero. -/
def zeroStats : Nat → FxGorm.DBStats := fun _ => ⟨0, 0, 0, 0⟩

/-- A MySQL configuration whose password contains a question mark and whose
only parameter is the location. -/
def mysqlQuestionMark : FxGorm.GormConfig :=
  { Database := ⟨"mysql", "localhost", 3306, "root", "p?ss", "app", "", "", false, "UTC", ""⟩
    Pool := ⟨0, 0, 0, 0⟩, Log := ⟨0, 0, false, false⟩, Debug := false }

/-- A MySQL configuration with the three parameters and no question mark in
its base. -/
def mysqlAllParameters : FxGorm.GormConfig :=
  { Database := ⟨"mysql", "localhost", 3306, "root", "secret", "app", "", "utf8mb4", true,
      "Local", ""⟩
    Pool := ⟨0, 0, 0, 0⟩, Log := ⟨0, 0, false, false⟩, Debug := false }

/-- A postgres configuration with every required field, and no type set. -/
def untypedPostgres : FxGorm.GormConfig :=
  { Database := ⟨"", "localhost", 5432, "postgres", "password", "testdb", "disable", "", false,
      "", ""⟩
    Pool := ⟨0, 0, 0, 0⟩, Log := ⟨0, 0, false, false⟩, Debug := false }

/-- The application configuration with the same database fields as
`untypedPostgres`. -/
def postgresConfig : FxConfig.Config :=
  ⟨"", "", ⟨"localhost", 5432, "postgres", "password", "testdb", "disable"⟩,
    ⟨fun key => if key = "database.type" then "postgres" else "", fun _ => 0, fun _ => false⟩⟩

/-- A stored user. -/
def alice : ApiRest.User :=
  ⟨1, "alice@example.org", "alice", "hash-of-secret", "Alice", "A", "user", true, 0, 0, none⟩

/-- A database whose lookup by email fails with a connection error, whose
lookup by username finds nothing, and whose `Create` stores the user under
the identifier 7. -/
def flakyDatabase : ApiRest.Database :=
  { firstByEmail := fun _ => .error (.other "connection refused")
    firstByUsername := fun _ => .error .ErrRecordNotFound
    create := fun user => .ok { user with ID := 7 } }

/-- A database that holds `alice` only. -/
def aliceDatabase : ApiRest.Database :=
  { firstByEmail := fun email =>
      if email = "alice@example.org" then .ok alice else .error .ErrRecordNotFound
    firstByUsername := fun username =>
      if username = "alice" then .ok alice else .error .ErrRecordNotFound
    create := fun user => .ok { user with ID := 8 } }

/-- A password comparison that accepts `secret` for `hash-of-secret`. -/
def compareSecret : String → String → Option String :=
  fun hash password =>
    if hash = "hash-of-secret" ∧ password = "secret" then none
    else some "hashedPassword is not the hash of the given password"

/-- A hook that starts and stops without error. -/
def healthyHook : Fx.LifecycleHook := ⟨fun _ => none, fun _ => none⟩

/-- A hook whose start fails. -/
def failingHook : Fx.LifecycleHook := ⟨fun _ => some (.other "bind failed"), fun _ => none⟩

/-- A session lookup that accepts the request `cookie` only. -/
def cookieSession : String → Except Golang.Error FxSupertoken.Session :=
  fun request =>
    if request = "cookie" then .ok ⟨"session-1"⟩ else .error (.other "unauthorised")

end Examples

/-! # Theorems -/

namespace FxEcho

/-! ## Closed form of the calls of `Register` and `NewEcho` -/

theorem applyMiddleware_eq {M : Type} (ms : List M) :
    ∀ (group : Group M) (e : Echo M),
      applyMiddleware ms group e
        = (⟨group.pfx, group.middleware ++ ms⟩,
            { e with calls := e.calls ++ useCalls group ms }) := by
  induction ms with
  | nil => intro group e; simp [applyMiddleware, useCalls]
  | cons m ms ih =>
    intro group e
    simp [applyMiddleware, useCalls, Group.Use, ih, List.append_assoc]

theorem registerRoutes_eq {M : Type} (rs : List routeRegistry) :
    ∀ (group : Group M) (e : Echo M),
      registerRoutes rs group e
        = { e with calls := e.calls
              ++ rs.map (fun r => Call.groupAdd group r.method r.path r.handle) } := by
  induction rs with
  | nil => intro group e; simp [registerRoutes]
  | cons r rs ih =>
    intro group e
    simp [registerRoutes, Group.Add, ih, List.append_assoc, routeRegistry.Method,
      routeRegistry.Path]
    rfl

mutual
theorem Register_eq {M : Type} :
    ∀ (g : groupRegistry M) (group : Group M) (e : Echo M),
      g.Register group e = { e with calls := e.calls ++ g.expectedCalls group }
  | .mk _ routes children middleware, group, e => by
    simp only [groupRegistry.Register, groupRegistry.expectedCalls, applyMiddleware_eq,
      registerRoutes_eq]
    rw [registerChildren_eq children]
    simp [List.append_assoc]
theorem registerChildren_eq {M : Type} :
    ∀ (cs : List (groupRegistry M)) (group : Group M) (e : Echo M),
      registerChildren cs group e = { e with calls := e.calls ++ childrenCalls cs group }
  | [], group, e => by simp [registerChildren, childrenCalls]
  | c :: cs, group, e => by
    simp only [registerChildren, childrenCalls, Group.Group]
    rw [Register_eq c, registerChildren_eq cs]
    simp [List.append_assoc]
end

theorem useMiddlewares_eq {M : Type} (ms : List M) :
    ∀ e : Echo M, useMiddlewares ms e
      = { e with calls := e.calls ++ ms.map (fun m => Call.use (.contributed m)) } := by
  induction ms with
  | nil => intro e; simp [useMiddlewares]
  | cons m ms ih => intro e; simp [useMiddlewares, Echo.Use, ih, List.append_assoc]

theorem registerGroups_eq {M : Type} (gs : List (groupRegistry M)) :
    ∀ e : Echo M, registerGroups gs e
      = { e with calls := e.calls
            ++ gs.flatMap (fun g => Call.group g.Prefix :: g.expectedCalls ⟨g.Prefix, []⟩) } := by
  induction gs with
  | nil => intro e; simp [registerGroups]
  | cons g gs ih =>
    intro e
    simp [registerGroups, Echo.Group, Register_eq, ih, List.append_assoc]

theorem addRoutes_eq {M : Type} (rs : List routeRegistry) :
    ∀ e : Echo M, addRoutes rs e
      = { e with calls := e.calls ++ rs.map (fun r => Call.add r.method r.path r.handle) } := by
  induction rs with
  | nil => intro e; simp [addRoutes]
  | cons r rs ih =>
    intro e
    simp [addRoutes, Echo.Add, ih, List.append_assoc, routeRegistry.Method, routeRegistry.Path]
    rfl

/-- The calls that `NewEcho` makes: the middleware installation, then the
groups, then the top-level routes, then the health endpoint. -/
theorem NewEcho_calls {M : Type} (p : EchoParams M) :
    ∃ e, NewEcho p = .ok e ∧
      e.calls =
        (if p.Middlewares.length = 0 then
            [Call.use .Logger, Call.use .Recover, Call.use (.CORSWithConfig defaultCORS)]
          else p.Middlewares.map (fun m => Call.use (.contributed m)))
        ++ p.Groups.flatMap (fun g => Call.group g.Prefix :: g.expectedCalls ⟨g.Prefix, []⟩)
        ++ p.Routes.map (fun r => Call.add r.method r.path r.handle)
        ++ [Call.add "GET" "/health" healthHandler] := by
  refine ⟨_, rfl, ?_⟩
  by_cases h : p.Middlewares.length = 0
  · simp [h, Echo.GET, Echo.Add, addRoutes_eq, registerGroups_eq, Echo.Use, Echo.New]
  · simp [h, Echo.GET, Echo.Add, addRoutes_eq, registerGroups_eq, useMiddlewares_eq, Echo.New]

end FxEcho

namespace FxEcho

/-! ## Server-wide middlewares -/

theorem useCalls_installs {M : Type} (ms : List M) :
    ∀ group : Group M, (useCalls group ms).filterMap Call.installs = [] := by
  induction ms with
  | nil => intro group; simp [useCalls]
  | cons m ms ih => intro group; simp [useCalls, Call.installs, ih]

mutual
theorem expectedCalls_installs {M : Type} :
    ∀ (g : groupRegistry M) (group : Group M),
      (g.expectedCalls group).filterMap Call.installs = []
  | .mk _ routes children middleware, group => by
    simp only [groupRegistry.expectedCalls, List.filterMap_append, useCalls_installs,
      childrenCalls_installs children, List.append_nil, List.nil_append]
    induction routes with
    | nil => simp
    | cons r rs ih => simp [Call.installs]
theorem childrenCalls_installs {M : Type} :
    ∀ (cs : List (groupRegistry M)) (group : Group M),
      (childrenCalls cs group).filterMap Call.installs = []
  | [], group => by simp [childrenCalls]
  | c :: cs, group => by
    simp [childrenCalls, Call.installs, expectedCalls_installs c, childrenCalls_installs cs]
end

theorem groupCalls_installs {M : Type} (gs : List (groupRegistry M)) :
    (gs.flatMap (fun g => Call.group g.Prefix :: g.expectedCalls ⟨g.Prefix, []⟩)).filterMap
      Call.installs = [] := by
  induction gs with
  | nil => simp
  | cons g gs ih =>
    simp only [List.flatMap_cons, List.filterMap_append, ih, List.append_nil]
    simp [Call.installs, expectedCalls_installs]

theorem routeCalls_installs {M : Type} (rs : List routeRegistry) :
    (rs.map (fun r => (Call.add r.method r.path r.handle : Call M))).filterMap
      Call.installs = [] := by
  induction rs with
  | nil => simp
  | cons r rs ih => simp [Call.installs]

/-- The middlewares installed by `NewEcho`: the default stack when nothing is
contributed, the contributed middlewares otherwise. -/
theorem NewEcho_installed {M : Type} (p : EchoParams M) :
    ∃ e, NewEcho p = .ok e ∧
      e.installed =
        if p.Middlewares.length = 0 then
          [.Logger, .Recover, .CORSWithConfig defaultCORS]
        else p.Middlewares.map Installed.contributed := by
  obtain ⟨e, he, hc⟩ := NewEcho_calls p
  refine ⟨e, he, ?_⟩
  unfold Echo.installed
  rw [hc]
  simp only [List.filterMap_append, groupCalls_installs, routeCalls_installs, List.append_nil]
  by_cases h : p.Middlewares.length = 0
  · simp [h, Call.installs]
  · simp only [h, if_false]
    have : ∀ ms : List M,
        (ms.map (fun m => Call.use (Installed.contributed m))).filterMap Call.installs
          = ms.map Installed.contributed := by
      intro ms
      induction ms with
      | nil => simp
      | cons m ms ih => simp [Call.installs, ih]
    simp [this, Call.installs]

/-- The two cases of the installed middlewares, by emptiness of the
contributed list. -/
theorem NewEcho_installed_cases {M : Type} (p : EchoParams M) :
    ∃ e, NewEcho p = .ok e ∧
      (p.Middlewares = [] → e.installed = [.Logger, .Recover, .CORSWithConfig defaultCORS]) ∧
      (p.Middlewares ≠ [] → e.installed = p.Middlewares.map Installed.contributed) := by
  obtain ⟨e, he, hi⟩ := NewEcho_installed p
  refine ⟨e, he, ?_, ?_⟩
  · intro h
    rw [hi]
    simp [h]
  · intro h
    have hlen : ¬ p.Middlewares.length = 0 := by
      simpa [List.length_eq_zero] using h
    rw [hi]
    simp [hlen]

/-- C1: for every list of contributed middlewares passed to `NewEcho`, if
the list is empty exactly the default stack (access logging, panic recovery,
CORS open to every origin) is installed, in that order; if the list has at
least one element, exactly the contributed middlewares are installed and none
of the three defaults is installed. -/
theorem NewEcho_default_stack_or_contributed {M : Type} (p : EchoParams M) :
    ∃ e, NewEcho p = .ok e ∧
      (p.Middlewares = [] →
        e.installed = [.Logger, .Recover, .CORSWithConfig defaultCORS]
          ∧ defaultCORS.AllowOrigins = ["*"]) ∧
      (p.Middlewares ≠ [] →
        e.installed = p.Middlewares.map Installed.contributed
          ∧ Installed.Logger ∉ e.installed
          ∧ Installed.Recover ∉ e.installed
          ∧ ∀ cfg, Installed.CORSWithConfig cfg ∉ e.installed) := by
  obtain ⟨e, he, hi⟩ := NewEcho_installed p
  refine ⟨e, he, ?_, ?_⟩
  · intro h
    rw [hi]
    simp [h, defaultCORS]
  · intro h
    have hlen : ¬ p.Middlewares.length = 0 := by
      simpa [List.length_eq_zero] using h
    rw [hi]
    simp [hlen]

/-- C1, on concrete inputs: with no contribution the default stack is
installed; with the single contributed middleware `7` only that one is. -/
theorem NewEcho_default_stack_or_contributed_witness :
    (∃ e, NewEcho Examples.noContribution = .ok e
        ∧ e.installed = [.Logger, .Recover, .CORSWithConfig defaultCORS])
      ∧ (∃ e, NewEcho Examples.oneMiddleware = .ok e
        ∧ e.installed = [.contributed 7] ∧ Installed.Logger ∉ e.installed) := by
  constructor
  · obtain ⟨e, he, h1, _⟩ := NewEcho_default_stack_or_contributed Examples.noContribution
    exact ⟨e, he, (h1 rfl).1⟩
  · obtain ⟨e, he, _, h2⟩ := NewEcho_default_stack_or_contributed Examples.oneMiddleware
    have h := h2 (by decide)
    exact ⟨e, he, h.1, h.2.1⟩

end FxEcho

namespace FxEcho

/-! ## Registered routes -/

theorem join_concat (l : List String) (s : String) :
    String.join (l ++ [s]) = String.join l ++ s := by
  simp [String.join, List.foldl_append]

theorem useCalls_route {M : Type} (ms : List M) :
    ∀ group : Group M, (useCalls group ms).filterMap Call.route = [] := by
  induction ms with
  | nil => intro group; simp [useCalls]
  | cons m ms ih => intro group; simp [useCalls, Call.route, ih]

theorem groupAdd_route {M : Type} (rs : List routeRegistry) (group : Group M) :
    ((rs.map (fun r => Call.groupAdd group r.method r.path r.handle)).filterMap
        Call.route).map (fun r => (r.method, r.path, r.handler))
      = rs.map (fun r => (r.method, group.pfx ++ r.path, r.handle)) := by
  induction rs with
  | nil => simp
  | cons r rs ih => simpa [Call.route] using ih

mutual
theorem expectedCalls_route {M : Type} :
    ∀ (g : groupRegistry M) (group : Group M) (ancestors : List String),
      group.pfx = String.join (ancestors ++ [g.Prefix]) →
      ((g.expectedCalls group).filterMap Call.route).map
          (fun r => (r.method, r.path, r.handler))
        = (g.located ancestors).map
            (fun x => (x.2.method, String.join x.1 ++ x.2.path, x.2.handle))
  | .mk pfx routes children middleware, group, ancestors, h => by
    simp only [groupRegistry.Prefix] at h
    simp only [groupRegistry.expectedCalls, groupRegistry.located, List.filterMap_append,
      List.map_append, useCalls_route, List.nil_append, groupAdd_route]
    rw [childrenCalls_route children ⟨group.pfx, group.middleware ++ middleware⟩
      (ancestors ++ [pfx]) h]
    simp [h, Function.comp_def]
theorem childrenCalls_route {M : Type} :
    ∀ (cs : List (groupRegistry M)) (group : Group M) (chain : List String),
      group.pfx = String.join chain →
      ((childrenCalls cs group).filterMap Call.route).map
          (fun r => (r.method, r.path, r.handler))
        = (locatedChildren cs chain).map
            (fun x => (x.2.method, String.join x.1 ++ x.2.path, x.2.handle))
  | [], group, chain, _ => by simp [childrenCalls, locatedChildren]
  | c :: cs, group, chain, h => by
    simp only [childrenCalls, locatedChildren, List.filterMap_append, List.map_append,
      List.filterMap_cons, Call.route, List.cons_append]
    rw [expectedCalls_route c _ chain (by simp [join_concat, h]),
      childrenCalls_route cs group chain h]
end

theorem groupCalls_route {M : Type} (gs : List (groupRegistry M)) :
    ((gs.flatMap (fun g => Call.group g.Prefix :: g.expectedCalls ⟨g.Prefix, []⟩)).filterMap
        Call.route).map (fun r => (r.method, r.path, r.handler))
      = (gs.flatMap (fun g => g.located [])).map
          (fun x => (x.2.method, String.join x.1 ++ x.2.path, x.2.handle)) := by
  induction gs with
  | nil => simp
  | cons g gs ih =>
    simp only [List.flatMap_cons, List.filterMap_append, List.map_append, ih,
      List.filterMap_cons, Call.route]
    rw [expectedCalls_route g _ [] (by simp [String.join])]

theorem routeCalls_route {M : Type} (rs : List routeRegistry) :
    (((rs.map (fun r => (Call.add r.method r.path r.handle : Call M))).filterMap
        Call.route).map (fun r => (r.method, r.path, r.handler)))
      = rs.map (fun r => (r.method, r.path, r.handle)) := by
  induction rs with
  | nil => simp
  | cons r rs ih => simpa [Call.route] using ih

theorem installs_route {M : Type} (p : EchoParams M) :
    (if p.Middlewares.length = 0 then
        [Call.use .Logger, Call.use .Recover, Call.use (.CORSWithConfig defaultCORS)]
      else p.Middlewares.map (fun m => Call.use (.contributed m))).filterMap Call.route
      = [] := by
  by_cases h : p.Middlewares.length = 0
  · simp [h, Call.route]
  · simp only [h, if_false]
    generalize p.Middlewares = ms
    induction ms with
    | nil => simp
    | cons m ms ih => simp [Call.route]

/-- C2: for every tree of group contributions handed to `NewEcho`, every
route of a group is registered at the path formed by concatenating the
prefixes of all its ancestor groups from the root down, then the group's own
prefix, then the route's path (the registrations in the router are, in order,
these, then the top-level routes, then the health endpoint); in particular
the group `/api` containing the nested group `/v1` containing the route
`GET /users` registers `GET /api/v1/users`. -/
theorem NewEcho_registers_group_routes_under_prefixes {M : Type} (p : EchoParams M) :
    ∃ e, NewEcho p = .ok e ∧
      e.registered.map (fun r => (r.method, r.path, r.handler))
        = (p.Groups.flatMap (fun g => g.located [])).map
            (fun x => (x.2.Method, String.join x.1 ++ x.2.Path, x.2.Handle))
          ++ p.Routes.map (fun r => (r.Method, r.Path, r.Handle))
          ++ [("GET", "/health", healthHandler)] ∧
      ∀ h : HandlerFunc, Examples.apiGroup M h ∈ p.Groups →
        ("GET", "/api/v1/users", h) ∈ e.registered.map (fun r => (r.method, r.path, r.handler)) := by
  obtain ⟨e, he, hc⟩ := NewEcho_calls p
  have key : e.registered.map (fun r => (r.method, r.path, r.handler))
        = (p.Groups.flatMap (fun g => g.located [])).map
            (fun x => (x.2.Method, String.join x.1 ++ x.2.Path, x.2.Handle))
          ++ p.Routes.map (fun r => (r.Method, r.Path, r.Handle))
          ++ [("GET", "/health", healthHandler)] := by
    unfold Echo.registered
    rw [hc]
    simp only [List.filterMap_append, List.map_append, installs_route, List.nil_append,
      groupCalls_route, routeCalls_route]
    simp [Call.route]
    rfl
  refine ⟨e, he, key, ?_⟩
  intro h hmem
  rw [key]
  apply List.mem_append_left
  apply List.mem_append_left
  rw [List.mem_map]
  refine ⟨(["/api", "/v1"], ⟨"GET", "/users", h⟩), ?_, ?_⟩
  · rw [List.mem_flatMap]
    exact ⟨_, hmem, by simp [Examples.apiGroup, groupRegistry.located, locatedChildren]⟩
  · have hj : String.join ["/api", "/v1"] ++ "/users" = "/api/v1/users" := by decide
    simp only [routeRegistry.Method, routeRegistry.Path, hj]
    rfl

/-- C2, on a concrete input: the server built from the single group `/api`
with nested group `/v1` and route `GET /users` has `GET /api/v1/users`. -/
theorem NewEcho_registers_group_routes_under_prefixes_witness :
    ∃ e, NewEcho (⟨[], [Examples.apiGroup Nat Examples.noContent], Examples.emptyConfig, []⟩ :
        EchoParams Nat) = .ok e
      ∧ ("GET", "/api/v1/users", Examples.noContent)
          ∈ e.registered.map (fun r => (r.method, r.path, r.handler)) := by
  obtain ⟨e, he, _, h⟩ := NewEcho_registers_group_routes_under_prefixes
    (⟨[], [Examples.apiGroup Nat Examples.noContent], Examples.emptyConfig, []⟩ : EchoParams Nat)
  exact ⟨e, he, h Examples.noContent (by simp)⟩

end FxEcho

namespace FxEcho

/-! ## Order of the calls -/

theorem useCalls_eq_zipWith {M : Type} (ms : List M) :
    ∀ group : Group M,
      useCalls group ms
        = List.zipWith (fun before m => Call.groupUse ⟨group.pfx, group.middleware ++ before⟩ m)
            ms.inits ms := by
  induction ms with
  | nil => intro group; simp [useCalls]
  | cons m ms ih =>
    intro group
    simp [useCalls, ih, List.zipWith_map_left]

theorem Register_fresh {M : Type} (g : groupRegistry M) (group : Group M) :
    (g.Register group Echo.New).calls = g.expectedCalls group := by
  simp [Register_eq, Echo.New]

theorem childrenCalls_eq_flatMap {M : Type} (cs : List (groupRegistry M)) (group : Group M) :
    childrenCalls cs group
      = cs.flatMap (fun child =>
          Call.groupGroup group child.Prefix
            :: (child.Register (group.Group Echo.New child.Prefix).1 Echo.New).calls) := by
  induction cs with
  | nil => simp [childrenCalls]
  | cons c cs ih => simp [childrenCalls, ih, Register_fresh, Group.Group]

/-- C3: for every group contribution, `groupRegistry.Register` performs its
effects on the routing scope in this order: first every middleware of the
group in declared order (each `Use` on the scope as the previous ones left
it), then every route of the group in declared order, then, for each nested
group in declared order, creation of a child scope at the child's prefix
followed by the complete registration of that child; each middleware, route
and nested group is registered exactly once. -/
theorem Register_effects_in_order {M : Type} (g : groupRegistry M) (group : Group M)
    (e : Echo M) :
    (g.Register group e).calls
      = e.calls
        ++ List.zipWith
            (fun before m => Call.groupUse ⟨group.pfx, group.middleware ++ before⟩ m)
            g.middleware.inits g.middleware
        ++ g.routes.map (fun route =>
            Call.groupAdd ⟨group.pfx, group.middleware ++ g.middleware⟩
              route.Method route.Path route.Handle)
        ++ g.children.flatMap (fun child =>
            Call.groupGroup ⟨group.pfx, group.middleware ++ g.middleware⟩ child.Prefix
              :: (child.Register
                    ((Group.Group ⟨group.pfx, group.middleware ++ g.middleware⟩
                        Echo.New child.Prefix).1)
                    Echo.New).calls) := by
  cases g with
  | mk pfx routes children middleware =>
    rw [Register_eq]
    simp only [groupRegistry.expectedCalls, groupRegistry.middleware, groupRegistry.routes,
      groupRegistry.children, useCalls_eq_zipWith, childrenCalls_eq_flatMap,
      List.append_assoc]
    rfl

/-- The calls of a group contribution registered by `NewEcho`: creation of
the scope at the group's prefix, then the registration of the group. -/
theorem groupCalls_eq {M : Type} (gs : List (groupRegistry M)) :
    gs.flatMap (fun g => Call.group g.Prefix :: g.expectedCalls ⟨g.Prefix, []⟩)
      = gs.flatMap (fun group =>
          Call.group group.Prefix
            :: (group.Register ((Echo.Group (Echo.New : Echo M) group.Prefix).1)
                  Echo.New).calls) := by
  induction gs with
  | nil => simp
  | cons g gs ih => simp [ih, Register_fresh, Echo.Group]

/-- C6: for every list of group contributions and every list of top-level
route contributions, `NewEcho` registers all group contributions (each with
its whole subtree, in the order of the groups list) before it registers any
top-level route, and then registers the top-level routes in the order of the
routes list, each with its own method, path and handler: after the `Use`
calls, the calls on the server are the groups, then the routes, then the
health endpoint. -/
theorem NewEcho_groups_then_routes {M : Type} (p : EchoParams M) :
    ∃ (e : Echo M) (uses : List (Installed M)), NewEcho p = .ok e ∧
      e.calls
        = uses.map Call.use
          ++ p.Groups.flatMap (fun group =>
              Call.group group.Prefix
                :: (group.Register ((Echo.Group (Echo.New : Echo M) group.Prefix).1)
                      Echo.New).calls)
          ++ p.Routes.map (fun route => Call.add route.Method route.Path route.Handle)
          ++ [Call.add "GET" "/health" healthHandler] := by
  obtain ⟨e, he, hc⟩ := NewEcho_calls p
  refine ⟨e,
    if p.Middlewares.length = 0 then
      [Installed.Logger, Installed.Recover, Installed.CORSWithConfig defaultCORS]
    else p.Middlewares.map Installed.contributed, he, ?_⟩
  rw [hc, groupCalls_eq]
  by_cases h : p.Middlewares.length = 0
  · simp [h]
    intro a _
    exact ⟨rfl, rfl, rfl⟩
  · simp [h, Function.comp_def]
    intro a _
    exact ⟨rfl, rfl, rfl⟩

/-- C7: for every combination of contributed routes, groups and
middlewares (including contributions that themselves register
`GET /health`), the server built by `NewEcho` has a `GET /health`
registration made by `NewEcho` itself after all contributions (it is the last
call on the server and the last registration in the router), whose handler
responds with status 200 and a body containing a status field. -/
theorem NewEcho_health_endpoint_last {M : Type} (p : EchoParams M) :
    ∃ e, NewEcho p = .ok e ∧
      e.calls.getLast? = some (Call.add "GET" "/health" healthHandler) ∧
      (e.registered.map (fun r => (r.method, r.path, r.handler))).getLast?
        = some ("GET", "/health", healthHandler) ∧
      ∀ ctx : Context, (healthHandler ctx).status = 200
        ∧ "status" ∈ (healthHandler ctx).body.map Prod.fst := by
  obtain ⟨e, he, hc⟩ := NewEcho_calls p
  refine ⟨e, he, ?_, ?_, ?_⟩
  · rw [hc, List.getLast?_concat]
  · unfold Echo.registered
    rw [hc]
    simp [List.filterMap_append, Call.route]
  · intro ctx
    simp [healthHandler]

/-- C8 as stated fails: the body written by the health handler that `NewEcho`
installs has no field named `timestamp`. -/
theorem health_body_has_no_timestamp_field :
    ∃ e h, NewEcho Examples.noContribution = .ok e
      ∧ e.calls.getLast? = some (Call.add "GET" "/health" h)
      ∧ "timestamp" ∉ (h ⟨0⟩).body.map Prod.fst :=
  ⟨_, healthHandler, rfl, rfl, by decide⟩

/-- C8, amended: the body returned by the fixed `GET /health` handler
installed by `NewEcho` is an object with exactly the two fields named
`status` and `time`, returned with HTTP status 200. -/
theorem NewEcho_health_body_fields {M : Type} (p : EchoParams M) :
    ∃ e h, NewEcho p = .ok e
      ∧ e.calls.getLast? = some (Call.add "GET" "/health" h)
      ∧ ∀ ctx : Context, (h ctx).status = 200
          ∧ (h ctx).body.map Prod.fst = ["status", "time"] := by
  obtain ⟨e, he, hc⟩ := NewEcho_calls p
  refine ⟨e, healthHandler, he, ?_, ?_⟩
  · rw [hc, List.getLast?_concat]
  · intro ctx
    simp [healthHandler]

end FxEcho

namespace FxEcho

/-! ## Priorities and the "middlewares" collection -/

/-- C4 as stated fails: handed session verification (priority 200) before
authentication (priority 100), `NewEcho` installs them in that order, which is
not the ascending-priority order. -/
theorem NewEcho_does_not_sort_by_priority :
    Examples.verifyFirst ≠ [] ∧
    ∃ e, NewEcho Examples.verifyFirstParams = .ok e ∧
      e.installed
        ≠ (Examples.verifyFirst.insertionSort (fun a b => a.Priority ≤ b.Priority)).map
            (fun c => Installed.contributed c.Middleware) :=
  ⟨by decide, _, rfl, by decide⟩

/-- C4, amended: for every non-empty list of middleware contributions whose
middlewares `NewEcho` receives in `EchoParams.Middlewares`, `NewEcho` installs
them in the order of the sequence it receives, whatever their priority
values; the priority is never consulted. -/
theorem NewEcho_installs_in_received_order {M : Type} (p : EchoParams M)
    (cs : List (FxSupertoken.SuperTokensMiddlewareRegistry M)) (hne : cs ≠ [])
    (hp : p.Middlewares = cs.map (fun c => c.Middleware)) :
    ∃ e, NewEcho p = .ok e ∧
      e.installed = cs.map (fun c => Installed.contributed c.Middleware) := by
  obtain ⟨e, he, hi⟩ := NewEcho_installed p
  refine ⟨e, he, ?_⟩
  have hlen : ¬ p.Middlewares.length = 0 := by
    simpa [hp, List.length_eq_zero] using hne
  rw [hi, if_neg hlen, hp, List.map_map]
  rfl

/-- C4 amended, on a concrete input: verification first, authentication
second, installed in that order. -/
theorem NewEcho_installs_in_received_order_witness :
    ∃ e, NewEcho Examples.verifyFirstParams = .ok e ∧
      e.installed = [.contributed .VerifySession, .contributed .SupertokenMiddleware] :=
  NewEcho_installs_in_received_order Examples.verifyFirstParams Examples.verifyFirst
    (by decide) rfl

end FxEcho

namespace ApiRest

open FxEcho

/-- C5 fails on the code: in the composition of `Bootstrap` the SuperTokens
contributions made through `AsMiddleware` are in the container, yet the
`Middlewares` sequence that `NewEcho` receives is empty, so the default stack
is installed and no SuperTokens middleware is. -/
theorem Bootstrap_installs_default_stack (config : FxConfig.Config) :
    FxSupertoken.AsSuperTokensMiddleware ∈ Bootstrap
      ∧ FxSupertoken.AsVerifySessionMiddleware ∈ Bootstrap
      ∧ (echoParams config).Middlewares = []
      ∧ ∃ e, NewEcho (echoParams config) = .ok e
          ∧ e.installed = [.Logger, .Recover, .CORSWithConfig defaultCORS]
          ∧ Installed.contributed FxSupertoken.Middleware.SupertokenMiddleware ∉ e.installed
          ∧ Installed.contributed FxSupertoken.Middleware.VerifySession ∉ e.installed := by
  have hm : (echoParams config).Middlewares = [] := by
    show Fx.resolveMiddlewares Bootstrap = []
    decide
  obtain ⟨e, he, h1, _⟩ := NewEcho_installed_cases (echoParams config)
  have hi := h1 hm
  refine ⟨by decide, by decide, hm, e, he, hi, ?_, ?_⟩ <;> simp [hi]

end ApiRest

namespace FxGorm

/-! ## Validation of the database configuration -/

/-- C9: `GormConfig.Validate` replaces an empty database type by postgres
and leaves every other field unchanged; it returns an error if and only if,
after that replacement, either the type is postgres, mysql or sqlserver and
at least one of Host, User, DBName is empty, or the type is sqlite and File is
empty, or the type is none of postgres, mysql, sqlite, sqlserver. -/
theorem Validate_error_iff (gc : GormConfig) :
    gc.Validate.1
        = { gc with Database := { gc.Database with
              DbType := if gc.Database.DbType = "" then PostgreSQL else gc.Database.DbType } }
      ∧ (gc.Validate.2.isSome ↔
          ((gc.Validate.1.Database.DbType = PostgreSQL ∨ gc.Validate.1.Database.DbType = MySQL
                ∨ gc.Validate.1.Database.DbType = SQLServer)
              ∧ (gc.Database.Host = "" ∨ gc.Database.User = "" ∨ gc.Database.DBName = ""))
            ∨ (gc.Validate.1.Database.DbType = SQLite ∧ gc.Database.File = "")
            ∨ (gc.Validate.1.Database.DbType ≠ PostgreSQL
                ∧ gc.Validate.1.Database.DbType ≠ MySQL
                ∧ gc.Validate.1.Database.DbType ≠ SQLite
                ∧ gc.Validate.1.Database.DbType ≠ SQLServer)) := by
  have hpm : PostgreSQL ≠ MySQL := by decide
  have hps : PostgreSQL ≠ SQLite := by decide
  have hpv : PostgreSQL ≠ SQLServer := by decide
  have hms : MySQL ≠ SQLite := by decide
  have hmv : MySQL ≠ SQLServer := by decide
  have hsv : SQLite ≠ SQLServer := by decide
  obtain ⟨⟨t, host, port, user, pw, dbname, ssl, cs, pt, loc, file⟩, pool, log, dbg⟩ := gc
  by_cases ht : t = ""
  · subst ht
    by_cases h1 : host = "" <;> by_cases h2 : user = "" <;> by_cases h3 : dbname = "" <;>
      simp [GormConfig.Validate, h1, h2, h3, hps]
  · by_cases hp : t = PostgreSQL
    · subst hp
      by_cases h1 : host = "" <;> by_cases h2 : user = "" <;> by_cases h3 : dbname = "" <;>
        simp [GormConfig.Validate, ht, h1, h2, h3, hps]
    · by_cases hm : t = MySQL
      · subst hm
        by_cases h1 : host = "" <;> by_cases h2 : user = "" <;> by_cases h3 : dbname = "" <;>
          simp [GormConfig.Validate, ht, h1, h2, h3, hpm.symm, hms]
      · by_cases hv : t = SQLServer
        · subst hv
          by_cases h1 : host = "" <;> by_cases h2 : user = "" <;> by_cases h3 : dbname = "" <;>
            simp [GormConfig.Validate, ht, h1, h2, h3, hpv.symm, hmv.symm, hsv.symm]
        · by_cases hs : t = SQLite
          · subst hs
            by_cases h4 : file = "" <;>
              simp [GormConfig.Validate, ht, h4, hps.symm, hms.symm, hsv]
          · simp [GormConfig.Validate, ht, hp, hm, hv, hs]

end FxGorm

namespace FxGorm

/-! ## Validation on the connection paths -/

/-- `DatabaseManager.Connect` validates before it opens: on a configuration
that `Validate` rejects it returns an error and takes no step. -/
theorem Connect_rejected_takes_no_step (d : Driver) (dm : DatabaseManager)
    (h : dm.config.Validate.2.isSome) :
    (dm.Connect d).2.1.isSome ∧ (dm.Connect d).2.2 = [] := by
  unfold DatabaseManager.Connect
  cases hv : dm.config.Validate with
  | mk config err =>
    cases err with
    | none => simp [hv] at h
    | some msg => simp

theorem openDatabase_steps (d : Driver) (gc : GormConfig) :
    ∃ rest, (gc.openDatabase d).2 = Step.openDatabase gc :: rest := by
  unfold GormConfig.openDatabase
  split
  · exact ⟨[], rfl⟩
  · split
    · exact ⟨_, rfl⟩
    · exact ⟨[], rfl⟩

/-- `NewGormDB` opens the database on every configuration: its first step is
`openDatabase`, on the configuration as read, with nothing validated. -/
theorem NewGormDB_always_opens (d : Driver) (p : Params) :
    ∃ gc, (NewGormDB d p).2.head? = some (Step.openDatabase gc)
      ∧ gc.Database = (NewGormConfig p.Config).Database := by
  have key : ∀ g : GormConfig,
      (match g.openDatabase d with
        | (.error err, steps) =>
          ((.error ("failed to open database: " ++ err) : Except String Nat), steps)
        | (.ok db, steps) =>
          match g.configureConnectionPool d db with
          | (_, some err, steps2) =>
            (.error ("failed to configure connection pool: " ++ err), steps ++ steps2)
          | (_, none, steps2) =>
            match d.sqlDB db with
            | .error err =>
              (.error ("failed to get underlying sql.DB: " ++ err), steps ++ steps2)
            | .ok sqlDB =>
              match d.ping sqlDB with
              | some err =>
                (.error ("failed to ping database: " ++ err),
                  steps ++ steps2 ++ [Step.ping sqlDB])
              | none => (.ok db, steps ++ steps2 ++ [Step.ping sqlDB])).2.head?
        = some (Step.openDatabase g) := by
    intro g
    obtain ⟨rest, hrest⟩ := openDatabase_steps d g
    cases ho : g.openDatabase d with
    | mk r steps =>
      rw [ho] at hrest
      simp only at hrest
      subst hrest
      cases r with
      | error err => simp
      | ok db =>
        simp only
        split
        · simp
        · split
          · simp
          · split <;> simp
  refine ⟨_, key _, ?_⟩
  simp only []
  split_ifs <;> rfl

/-- What `openDatabase` does on the mysql configuration without database
name, for every driver: it builds the DSN and hands it to `gorm.Open`. -/
theorem openDatabase_mysqlNoDatabase (d : Driver) :
    (NewGormDB.logDefaults (NewGormConfig Examples.mysqlNoDatabase)).openDatabase d
      = (d.gormOpen "mysql" "root:secret@tcp(localhost:3306)/"
            ⟨loggerInfo, FxEcho.Second * 5, false, false⟩ false,
          [Step.openDatabase (NewGormDB.logDefaults (NewGormConfig Examples.mysqlNoDatabase)),
            Step.gormOpen "mysql" "root:secret@tcp(localhost:3306)/"]) :=
  rfl

/-- C10 fails on the code: the mysql configuration with host, port, user
and password but without database name is rejected by
`GormConfig.Validate`, and `DatabaseManager.Connect` returns that error
without opening the database, whatever the driver; but `NewGormDB`, whatever
the driver, calls `openDatabase` and hands the DSN to `gorm.Open` as its first
two steps, and with a server that admits the connection it returns a handle
and no error. -/
theorem NewGormDB_skips_validation :
    (NewGormConfig Examples.mysqlNoDatabase).Validate.2
        = some "dbname is required for mysql database"
      ∧ (∀ d : Driver, (Examples.managerNoDatabase.Connect d).2
          = (some "configuration validation failed: dbname is required for mysql database",
              []))
      ∧ (∀ d : Driver, (NewGormDB d ⟨Examples.mysqlNoDatabase⟩).2.take 2
          = [Step.openDatabase
              { (NewGormConfig Examples.mysqlNoDatabase) with
                Log := ⟨loggerInfo, FxEcho.Second * 5, false, false⟩ },
            Step.gormOpen "mysql" "root:secret@tcp(localhost:3306)/"])
      ∧ (NewGormDB Examples.acceptingDriver ⟨Examples.mysqlNoDatabase⟩).1 = .ok 1 := by
  refine ⟨?_, ?_, ?_, ?_⟩
  · decide
  · intro d
    rfl
  · intro d
    have ho := openDatabase_mysqlNoDatabase d
    show (match (NewGormDB.logDefaults (NewGormConfig Examples.mysqlNoDatabase)).openDatabase d
      with
      | (.error err, steps) =>
        ((.error ("failed to open database: " ++ err) : Except String Nat), steps)
      | (.ok db, steps) => _).2.take 2 = _
    rw [ho]
    cases d.gormOpen "mysql" "root:secret@tcp(localhost:3306)/"
        ⟨loggerInfo, FxEcho.Second * 5, false, false⟩ false with
    | error err => rfl
    | ok db =>
      simp only
      split
      · rfl
      · split
        · rfl
        · split <;> rfl
  · rfl

end FxGorm

namespace FxGorm

/-! ## The DSN and the defaults -/

theorem ne_empty_of_length_pos (s : String) (h : 0 < s.length) : s ≠ "" := by
  intro hs
  rw [hs] at h
  exact absurd h (by decide)

theorem postgres_dsn_ne_empty (a b c d e f : String) :
    "host=" ++ a ++ " user=" ++ b ++ " password=" ++ c ++ " dbname=" ++ d
      ++ " port=" ++ e ++ " sslmode=" ++ f ≠ "" := by
  apply ne_empty_of_length_pos
  have h : "host=".length = 5 := by decide
  simp only [String.length_append]
  omega

theorem sqlserver_dsn_ne_empty (a b c d e : String) :
    "sqlserver://" ++ a ++ ":" ++ b ++ "@" ++ c ++ ":" ++ d ++ "?database=" ++ e ≠ "" := by
  apply ne_empty_of_length_pos
  have h : "sqlserver://".length = 12 := by decide
  simp only [String.length_append]
  omega

theorem mysql_base_length_pos (a b c d e : String) :
    0 < (a ++ ":" ++ b ++ "@tcp(" ++ c ++ ":" ++ d ++ ")/" ++ e).length := by
  have h : ":".length = 1 := by decide
  simp only [String.length_append]
  omega

/-- The MySQL branch of `buildDSN` returns a non-empty DSN. -/
theorem mysql_dsn_ne_empty (gc : GormConfig) (h : gc.Database.DbType = MySQL) :
    ∃ dsn, gc.buildDSN = .ok dsn ∧ dsn ≠ "" := by
  have hne : MySQL ≠ PostgreSQL := by decide
  have hb := mysql_base_length_pos gc.Database.User gc.Database.Password gc.Database.Host
    (toString gc.Database.Port) gc.Database.DBName
  unfold GormConfig.buildDSN
  simp only [h, hne, if_false, if_true]
  refine ⟨_, rfl, ?_⟩
  apply ne_empty_of_length_pos
  simp only [String.length_append] at hb
  split_ifs <;> simp only [String.length_append] <;> omega

/-- C11: `GormConfig.buildDSN` returns an error if and only if the database
type is sqlite with an empty File or the type is not one of postgres, mysql,
sqlite, sqlserver; in every other case it returns a non-empty DSN string and
no error. -/
theorem buildDSN_error_iff (gc : GormConfig) :
    (((gc.Database.DbType = SQLite ∧ gc.Database.File = "")
          ∨ (gc.Database.DbType ≠ PostgreSQL ∧ gc.Database.DbType ≠ MySQL
              ∧ gc.Database.DbType ≠ SQLite ∧ gc.Database.DbType ≠ SQLServer))
        ∧ ∃ err, gc.buildDSN = .error err)
      ∨ (¬ ((gc.Database.DbType = SQLite ∧ gc.Database.File = "")
          ∨ (gc.Database.DbType ≠ PostgreSQL ∧ gc.Database.DbType ≠ MySQL
              ∧ gc.Database.DbType ≠ SQLite ∧ gc.Database.DbType ≠ SQLServer))
        ∧ ∃ dsn, gc.buildDSN = .ok dsn ∧ dsn ≠ "") := by
  have hpm : PostgreSQL ≠ MySQL := by decide
  have hps : PostgreSQL ≠ SQLite := by decide
  have hpv : PostgreSQL ≠ SQLServer := by decide
  have hms : MySQL ≠ SQLite := by decide
  have hmv : MySQL ≠ SQLServer := by decide
  have hsv : SQLite ≠ SQLServer := by decide
  by_cases hp : gc.Database.DbType = PostgreSQL
  · right
    refine ⟨by simp [hp, hps], ?_⟩
    unfold GormConfig.buildDSN
    rw [if_pos hp]
    exact ⟨_, rfl, postgres_dsn_ne_empty _ _ _ _ _ _⟩
  · by_cases hm : gc.Database.DbType = MySQL
    · right
      exact ⟨by simp [hm, hms, hpm.symm], mysql_dsn_ne_empty gc hm⟩
    · by_cases hs : gc.Database.DbType = SQLite
      · by_cases hf : gc.Database.File = ""
        · left
          refine ⟨Or.inl ⟨hs, hf⟩, ?_⟩
          unfold GormConfig.buildDSN
          rw [if_neg hp, if_neg hm, if_pos hs, if_pos hf]
          exact ⟨_, rfl⟩
        · right
          refine ⟨by simp [hs, hf], ?_⟩
          unfold GormConfig.buildDSN
          rw [if_neg hp, if_neg hm, if_pos hs, if_neg hf]
          exact ⟨_, rfl, hf⟩
      · by_cases hv : gc.Database.DbType = SQLServer
        · right
          refine ⟨by simp [hv, hsv.symm], ?_⟩
          unfold GormConfig.buildDSN
          rw [if_neg hp, if_neg hm, if_neg hs, if_pos hv]
          exact ⟨_, rfl, sqlserver_dsn_ne_empty _ _ _ _ _⟩
        · left
          refine ⟨Or.inr ⟨hp, hm, hs, hv⟩, ?_⟩
          unfold GormConfig.buildDSN
          rw [if_neg hp, if_neg hm, if_neg hs, if_neg hv]
          exact ⟨_, rfl⟩

end FxGorm

namespace FxGorm

/-- C12: for every `GormConfig`, after `SetDefaults` each of Log.Level,
Log.SlowThreshold, Pool.MaxIdleConns, Pool.MaxOpenConns, Pool.ConnMaxLifetime
and Pool.ConnMaxIdleTime is non-zero: a field that was zero holds its default
(Info, 5 s, 10, 100, 1 h, 10 min respectively), a field that was non-zero is
unchanged, and the Database and Debug fields (and the two remaining Log
fields) are unchanged. -/
theorem SetDefaults_fills_zero_fields (gc : GormConfig) :
    gc.SetDefaults
        = { Database := gc.Database
            Pool :=
              { MaxIdleConns := if gc.Pool.MaxIdleConns = 0 then 10 else gc.Pool.MaxIdleConns
                MaxOpenConns := if gc.Pool.MaxOpenConns = 0 then 100 else gc.Pool.MaxOpenConns
                ConnMaxLifetime :=
                  if gc.Pool.ConnMaxLifetime = 0 then 3600 * FxEcho.Second
                  else gc.Pool.ConnMaxLifetime
                ConnMaxIdleTime :=
                  if gc.Pool.ConnMaxIdleTime = 0 then 600 * FxEcho.Second
                  else gc.Pool.ConnMaxIdleTime }
            Log :=
              { Level := if gc.Log.Level = 0 then loggerInfo else gc.Log.Level
                SlowThreshold :=
                  if gc.Log.SlowThreshold = 0 then 5 * FxEcho.Second else gc.Log.SlowThreshold
                Colorful := gc.Log.Colorful
                IgnoreRecordNotFoundError := gc.Log.IgnoreRecordNotFoundError }
            Debug := gc.Debug }
      ∧ gc.SetDefaults.Log.Level ≠ 0
      ∧ gc.SetDefaults.Log.SlowThreshold ≠ 0
      ∧ gc.SetDefaults.Pool.MaxIdleConns ≠ 0
      ∧ gc.SetDefaults.Pool.MaxOpenConns ≠ 0
      ∧ gc.SetDefaults.Pool.ConnMaxLifetime ≠ 0
      ∧ gc.SetDefaults.Pool.ConnMaxIdleTime ≠ 0 := by
  have hH : Hour = 3600 * FxEcho.Second := by decide
  have hM : Minute * 10 = 600 * FxEcho.Second := by decide
  have hS : FxEcho.Second * 5 = 5 * FxEcho.Second := by decide
  have h1 : (3600 * FxEcho.Second : Int) ≠ 0 := by decide
  have h2 : (600 * FxEcho.Second : Int) ≠ 0 := by decide
  have h3 : (5 * FxEcho.Second : Int) ≠ 0 := by decide
  have h4 : loggerInfo ≠ 0 := by decide
  obtain ⟨db, ⟨a, b, c, d⟩, ⟨l, t, co, ig⟩, dbg⟩ := gc
  have key : (GormConfig.mk db ⟨a, b, c, d⟩ ⟨l, t, co, ig⟩ dbg).SetDefaults
      = { Database := db
          Pool := ⟨if a = 0 then 10 else a, if b = 0 then 100 else b,
            if c = 0 then 3600 * FxEcho.Second else c,
            if d = 0 then 600 * FxEcho.Second else d⟩
          Log := ⟨if l = 0 then loggerInfo else l,
            if t = 0 then 5 * FxEcho.Second else t, co, ig⟩
          Debug := dbg } := by
    unfold GormConfig.SetDefaults
    rw [hH, hM, hS]
    by_cases ha : a = 0 <;> by_cases hb : b = 0 <;> by_cases hc : c = 0 <;>
      by_cases hd : d = 0 <;> by_cases hl : l = 0 <;> by_cases ht : t = 0 <;>
      simp [ha, hb, hc, hd, hl, ht]
  refine ⟨key, ?_⟩
  rw [key]
  refine ⟨?_, ?_, ?_, ?_, ?_, ?_⟩
  · show (if l = 0 then loggerInfo else l) ≠ 0
    split_ifs with h
    · exact h4
    · exact h
  · show (if t = 0 then 5 * FxEcho.Second else t) ≠ 0
    split_ifs with h
    · exact h3
    · exact h
  · show (if a = 0 then (10 : Int) else a) ≠ 0
    split_ifs with h
    · decide
    · exact h
  · show (if b = 0 then (100 : Int) else b) ≠ 0
    split_ifs with h
    · decide
    · exact h
  · show (if c = 0 then 3600 * FxEcho.Second else c) ≠ 0
    split_ifs with h
    · exact h1
    · exact h
  · show (if d = 0 then 600 * FxEcho.Second else d) ≠ 0
    split_ifs with h
    · exact h2
    · exact h

end FxGorm

namespace FxEcho

/-! ## `NewServerConfig` -/

theorem wrap64_seconds (n : Int) (hlo : -9223372036 ≤ n) (hhi : n ≤ 9223372036) :
    wrap64 (n * Second) = n * Second := by
  unfold wrap64 Second
  omega

theorem seconds_eq_zero_iff (n : Int) : n * Second = 0 ↔ n = 0 := by
  unfold Second
  omega

/-- The timeout that `NewServerConfig` computes from a configured number of
seconds that fits the duration type. -/
theorem timeout_of_seconds (n dflt : Int) (hlo : -9223372036 ≤ n) (hhi : n ≤ 9223372036) :
    (if wrap64 (n * Second) = 0 then dflt else wrap64 (n * Second))
      = if n = 0 then dflt else n * Second := by
  rw [wrap64_seconds n hlo hhi]
  by_cases h : n = 0
  · simp [h]
  · have h0 : ¬ n * Second = 0 := fun h0 => h ((seconds_eq_zero_iff n).1 h0)
    rw [if_neg h0, if_neg h]

/-- C13 as stated fails: with `server.read_timeout` set to `2^55` seconds,
a non-zero value of Go type `int`, the product with `time.Second` wraps to
zero in the 64-bit duration, and the read timeout returned is the default of
30 s, not the configured number of seconds. -/
theorem NewServerConfig_read_timeout_wraps :
    ∃ sc, NewServerConfig Examples.hugeReadTimeout = .ok sc
      ∧ Examples.hugeReadTimeout.Accessor.GetInt "server.read_timeout" ≠ 0
      ∧ -2 ^ 63 ≤ Examples.hugeReadTimeout.Accessor.GetInt "server.read_timeout"
      ∧ Examples.hugeReadTimeout.Accessor.GetInt "server.read_timeout" < 2 ^ 63
      ∧ sc.ReadTimeout = 30 * Second
      ∧ sc.ReadTimeout
          ≠ Examples.hugeReadTimeout.Accessor.GetInt "server.read_timeout" * Second := by
  refine ⟨_, rfl, ?_, ?_, ?_, ?_, ?_⟩ <;> decide

/-- C13, amended: for every configuration whose three configured timeouts,
in seconds, times `10^9` fit a signed 64-bit integer (here: are between
-9223372036 and 9223372036), `NewServerConfig` returns no error and a
`ServerConfig` whose Host is the configured `server.host` or "0.0.0.0" when
that is empty, whose Port is the configured `server.port` or "8080" when
empty, and whose ReadTimeout, WriteTimeout and IdleTimeout are the configured
integer number of seconds or 30 s, 30 s and 60 s respectively when the
configured value is 0. -/
theorem NewServerConfig_defaults (config : FxConfig.Config)
    (hr : -9223372036 ≤ config.Accessor.GetInt "server.read_timeout"
      ∧ config.Accessor.GetInt "server.read_timeout" ≤ 9223372036)
    (hw : -9223372036 ≤ config.Accessor.GetInt "server.write_timeout"
      ∧ config.Accessor.GetInt "server.write_timeout" ≤ 9223372036)
    (hi : -9223372036 ≤ config.Accessor.GetInt "server.idle_timeout"
      ∧ config.Accessor.GetInt "server.idle_timeout" ≤ 9223372036) :
    NewServerConfig config
      = .ok
          { Host := if config.Accessor.GetString "server.host" = "" then "0.0.0.0"
              else config.Accessor.GetString "server.host"
            Port := if config.Accessor.GetString "server.port" = "" then "8080"
              else config.Accessor.GetString "server.port"
            ReadTimeout := if config.Accessor.GetInt "server.read_timeout" = 0 then 30 * Second
              else config.Accessor.GetInt "server.read_timeout" * Second
            WriteTimeout :=
              if config.Accessor.GetInt "server.write_timeout" = 0 then 30 * Second
              else config.Accessor.GetInt "server.write_timeout" * Second
            IdleTimeout := if config.Accessor.GetInt "server.idle_timeout" = 0 then 60 * Second
              else config.Accessor.GetInt "server.idle_timeout" * Second } := by
  have h30 : wrap64 (30 * Second) = 30 * Second := by decide
  have h60 : wrap64 (60 * Second) = 60 * Second := by decide
  unfold NewServerConfig
  simp only [h30, h60, timeout_of_seconds _ _ hr.1 hr.2, timeout_of_seconds _ _ hw.1 hw.2,
    timeout_of_seconds _ _ hi.1 hi.2]

/-- C13 amended, on a concrete input: host and port set, timeouts of 10 s,
20 s and unset. -/
theorem NewServerConfig_defaults_witness :
    NewServerConfig Examples.configuredServer
      = .ok ⟨"127.0.0.1", "9000", 10 * Second, 20 * Second, 60 * Second⟩ := by
  have h := NewServerConfig_defaults Examples.configuredServer
    (by decide) (by decide) (by decide)
  rw [h]
  apply congrArg
  decide

end FxEcho

namespace FxEcho

/-! ## Builders -/

/-- C14: for every path `p` and handler `h`, the route built by
`GET(p,h).Build()`, `POST(p,h).Build()`, `PUT(p,h).Build()`,
`DELETE(p,h).Build()` and `PATCH(p,h).Build()` has `Method()` equal to "GET",
"POST", "PUT", "DELETE" and "PATCH" respectively, `Path()` equal to `p`, and
`Handle(ctx)` equal to `h(ctx)` for every `ctx`; `NewRoute(m,p,h).Build()` has
`Method()` equal to `m`. -/
theorem route_builders_build (p : String) (h : HandlerFunc) :
    ((GET p h).Build.Method = "GET" ∧ (GET p h).Build.Path = p
        ∧ ∀ ctx, (GET p h).Build.Handle ctx = h ctx)
      ∧ ((POST p h).Build.Method = "POST" ∧ (POST p h).Build.Path = p
        ∧ ∀ ctx, (POST p h).Build.Handle ctx = h ctx)
      ∧ ((PUT p h).Build.Method = "PUT" ∧ (PUT p h).Build.Path = p
        ∧ ∀ ctx, (PUT p h).Build.Handle ctx = h ctx)
      ∧ ((DELETE p h).Build.Method = "DELETE" ∧ (DELETE p h).Build.Path = p
        ∧ ∀ ctx, (DELETE p h).Build.Handle ctx = h ctx)
      ∧ ((PATCH p h).Build.Method = "PATCH" ∧ (PATCH p h).Build.Path = p
        ∧ ∀ ctx, (PATCH p h).Build.Handle ctx = h ctx)
      ∧ ∀ m : String, (NewRoute m p h).Build.Method = m
          ∧ (NewRoute m p h).Build.Path = p
          ∧ ∀ ctx, (NewRoute m p h).Build.Handle ctx = h ctx :=
  ⟨⟨rfl, rfl, fun _ => rfl⟩, ⟨rfl, rfl, fun _ => rfl⟩, ⟨rfl, rfl, fun _ => rfl⟩,
    ⟨rfl, rfl, fun _ => rfl⟩, ⟨rfl, rfl, fun _ => rfl⟩, fun _ => ⟨rfl, rfl, fun _ => rfl⟩⟩

/-- The builder after a sequence of calls: each sequence has grown by the
arguments of its own calls, in call order. -/
theorem foldl_call_eq {M : Type} (calls : List (BuilderCall M)) :
    ∀ gb : GroupBuilder M,
      calls.foldl GroupBuilder.call gb
        = ⟨gb.pfx, gb.routes ++ calls.filterMap BuilderCall.route?,
            gb.children ++ calls.filterMap BuilderCall.group?,
            gb.middleware ++ calls.flatMap BuilderCall.middlewares⟩ := by
  induction calls with
  | nil => intro gb; simp
  | cons c cs ih =>
    intro gb
    rw [List.foldl_cons, ih]
    cases c <;>
      simp [GroupBuilder.call, GroupBuilder.AddRoute, GroupBuilder.AddGroup, GroupBuilder.Use,
        BuilderCall.route?, BuilderCall.group?, BuilderCall.middlewares, List.append_assoc]

/-- C15: for every prefix and every finite sequence of `AddRoute`,
`AddGroup` and `Use` calls applied to `NewGroup(prefix)`, `Build()` returns a
group whose `Prefix()` is the prefix, whose routes are the `AddRoute` arguments
in call order, whose children are the `AddGroup` arguments in call order and
whose middlewares are the concatenation of the `Use` argument lists in call
order; each call changes only its own sequence, by appending its arguments,
and leaves the prefix and the other two sequences unchanged. -/
theorem GroupBuilder_Build_collects_calls {M : Type} (pfx : String)
    (calls : List (BuilderCall M)) :
    ((calls.foldl GroupBuilder.call (NewGroup pfx)).Build
        = groupRegistry.mk pfx (calls.filterMap BuilderCall.route?)
            (calls.filterMap BuilderCall.group?) (calls.flatMap BuilderCall.middlewares))
      ∧ (calls.foldl GroupBuilder.call (NewGroup pfx)).Build.Prefix = pfx
      ∧ (∀ (gb : GroupBuilder M) (route : routeRegistry),
          gb.AddRoute route = ⟨gb.pfx, gb.routes ++ [route], gb.children, gb.middleware⟩)
      ∧ (∀ (gb : GroupBuilder M) (group : groupRegistry M),
          gb.AddGroup group = ⟨gb.pfx, gb.routes, gb.children ++ [group], gb.middleware⟩)
      ∧ (∀ (gb : GroupBuilder M) (middleware : List M),
          gb.Use middleware = ⟨gb.pfx, gb.routes, gb.children, gb.middleware ++ middleware⟩) := by
  refine ⟨?_, ?_, fun _ _ => rfl, fun _ _ => rfl, fun _ _ => rfl⟩
  · rw [foldl_call_eq]
    simp [GroupBuilder.Build, NewGroup]
  · rw [foldl_call_eq]
    simp [GroupBuilder.Build, NewGroup, groupRegistry.Prefix]

end FxEcho

namespace FxEcho

/-! ## Scope of group middlewares -/

theorem groupAdd_registered {M : Type} (rs : List routeRegistry) (group : Group M) :
    (rs.map (fun r => Call.groupAdd group r.method r.path r.handle)).filterMap Call.route
      = rs.map (fun r => (⟨r.method, group.pfx ++ r.path, r.handle, group.middleware⟩ : Route M)) := by
  induction rs with
  | nil => simp
  | cons r rs ih => simpa [Call.route] using ih

mutual
theorem expectedCalls_registered {M : Type} :
    ∀ (g : groupRegistry M) (group : Group M) (ancestors : List String),
      group.pfx = String.join (ancestors ++ [g.Prefix]) →
      (g.expectedCalls group).filterMap Call.route
        = (g.scoped ancestors group.middleware).map
            (fun x => (⟨x.2.2.method, String.join x.1 ++ x.2.2.path, x.2.2.handle, x.2.1⟩ :
              Route M))
  | .mk pfx routes children middleware, group, ancestors, h => by
    simp only [groupRegistry.Prefix] at h
    simp only [groupRegistry.expectedCalls, groupRegistry.scoped, List.filterMap_append,
      List.map_append, useCalls_route, List.nil_append, groupAdd_registered]
    rw [childrenCalls_registered children ⟨group.pfx, group.middleware ++ middleware⟩
      (ancestors ++ [pfx]) h]
    simp [h, Function.comp_def]
theorem childrenCalls_registered {M : Type} :
    ∀ (cs : List (groupRegistry M)) (group : Group M) (chain : List String),
      group.pfx = String.join chain →
      (childrenCalls cs group).filterMap Call.route
        = (scopedChildren cs chain group.middleware).map
            (fun x => (⟨x.2.2.method, String.join x.1 ++ x.2.2.path, x.2.2.handle, x.2.1⟩ :
              Route M))
  | [], group, chain, _ => by simp [childrenCalls, scopedChildren]
  | c :: cs, group, chain, h => by
    simp only [childrenCalls, scopedChildren, List.filterMap_append, List.map_append,
      List.filterMap_cons, Call.route, List.cons_append]
    rw [expectedCalls_registered c ⟨group.pfx ++ c.Prefix, group.middleware⟩ chain
        (by simp [join_concat, h]),
      childrenCalls_registered cs group chain h]
end

theorem groupCalls_registered {M : Type} (gs : List (groupRegistry M)) :
    (gs.flatMap (fun g => Call.group g.Prefix :: g.expectedCalls ⟨g.Prefix, []⟩)).filterMap
        Call.route
      = (gs.flatMap (fun g => g.scoped [] [])).map
          (fun x => (⟨x.2.2.method, String.join x.1 ++ x.2.2.path, x.2.2.handle, x.2.1⟩ :
            Route M)) := by
  induction gs with
  | nil => simp
  | cons g gs ih =>
    simp only [List.flatMap_cons, List.filterMap_append, List.map_append, ih,
      List.filterMap_cons, Call.route]
    rw [expectedCalls_registered g ⟨g.Prefix, []⟩ [] (by simp [String.join])]

theorem routeCalls_registered {M : Type} (rs : List routeRegistry) :
    (rs.map (fun r => (Call.add r.method r.path r.handle : Call M))).filterMap Call.route
      = rs.map (fun r => (⟨r.method, r.path, r.handle, []⟩ : Route M)) := by
  induction rs with
  | nil => simp
  | cons r rs ih => simpa [Call.route] using ih

/-- C16: for every tree of group contributions registered by `NewEcho`, a
middleware declared on group G is applied only within G's scope. Every
registration in the router carries exactly the middlewares declared on the
groups it sits in, from the root group down to its own group: a middleware of
G is attached to the routes of G and of the groups nested in G, and to no
route of a sibling or of an ancestor of G; the top-level routes and the health
endpoint carry no group middleware, and the server-wide middlewares do not
depend on the groups. -/
theorem NewEcho_group_middleware_scope {M : Type} (p : EchoParams M) :
    ∃ e, NewEcho p = .ok e ∧
      e.registered
        = (p.Groups.flatMap (fun g => g.scoped [] [])).map
            (fun x => (⟨x.2.2.Method, String.join x.1 ++ x.2.2.Path, x.2.2.Handle, x.2.1⟩ :
              Route M))
          ++ p.Routes.map (fun r => (⟨r.Method, r.Path, r.Handle, []⟩ : Route M))
          ++ [⟨"GET", "/health", healthHandler, []⟩] ∧
      e.installed =
        if p.Middlewares.length = 0 then
          [.Logger, .Recover, .CORSWithConfig defaultCORS]
        else p.Middlewares.map Installed.contributed := by
  obtain ⟨e, he, hc⟩ := NewEcho_calls p
  obtain ⟨e2, he2, hi⟩ := NewEcho_installed p
  have hee : e2 = e := by
    rw [he] at he2
    exact (Except.ok.inj he2).symm
  subst hee
  refine ⟨e2, he, ?_, hi⟩
  unfold Echo.registered
  rw [hc]
  simp only [List.filterMap_append, installs_route, List.nil_append, groupCalls_registered,
    routeCalls_registered]
  simp [Call.route]
  rfl

end FxEcho

namespace FxEcho

/-- The scopes of `Examples.withOwnHealth`: the routes of `/api` run behind
its two middlewares, the route of the nested `/v1` behind those and its own,
the top-level route and the health endpoint behind none. -/
theorem withOwnHealth_scopes :
    ∃ e, NewEcho Examples.withOwnHealth = .ok e
      ∧ e.registered.map (fun r => (r.method, r.path, r.middleware))
          = [("GET", "/api/a", [1, 2]), ("POST", "/api/b", [1, 2]),
              ("GET", "/api/v1/users", [1, 2, 3]), ("GET", "/health", []),
              ("GET", "/health", [])] :=
  ⟨_, rfl, by decide⟩

/-! ## Lifecycle hooks -/

/-- The hook appended by `NewEcho` exists for every input, and its closures
are `OnStart` on the server built by `NewEcho` and `OnStop`. -/
theorem NewEchoHook_eq {M : Type} (p : EchoParams M) :
    ∃ e serverConfig, NewEcho p = .ok e ∧ NewServerConfig p.Config = .ok serverConfig
      ∧ NewEchoHook p = .ok ⟨OnStart e serverConfig, OnStop⟩ :=
  ⟨_, _, rfl, rfl, rfl⟩

/-- C17: the `OnStart` hook that `NewEcho` appends to the lifecycle returns
success (`nil`) for every context and every outcome of the listener start:
the listener runs in a background task whose only effect on failure is a log
entry, so a bind failure is only logged and never makes `OnStart` return an
error. -/
theorem OnStart_always_succeeds {M : Type} (p : EchoParams M) :
    ∃ hook, NewEchoHook p = .ok hook ∧
      ∀ ctx : Golang.Context,
        (hook.OnStart ctx).result = none
          ∧ (∀ msg : String,
              (hook.OnStart ctx).background (some (.other msg))
                = [LogEntry.Error "failed to start Echo server" (.other msg)])
          ∧ (hook.OnStart ctx).background (some .ErrServerClosed) = []
          ∧ (hook.OnStart ctx).background none = [] := by
  obtain ⟨e, sc, _, _, hh⟩ := NewEchoHook_eq p
  refine ⟨_, hh, ?_⟩
  intro ctx
  refine ⟨rfl, ?_, ?_, rfl⟩
  · intro msg
    simp [OnStart]
  · simp [OnStart]

theorem WithTimeout_deadline (now timeout : Int) (parent : Golang.Context) :
    ∃ d, (Golang.WithTimeout now parent timeout).deadline = some d
      ∧ d ≤ now + timeout
      ∧ ∀ pd, parent.deadline = some pd → d ≤ pd := by
  unfold Golang.WithTimeout
  cases h : parent.deadline with
  | none => exact ⟨_, rfl, le_refl _, fun pd hpd => by simp at hpd⟩
  | some d0 =>
    by_cases hlt : d0 < now + timeout
    · refine ⟨d0, by simp [hlt], le_of_lt hlt, ?_⟩
      intro pd hpd
      simp at hpd
      omega
    · refine ⟨now + timeout, by simp [hlt], le_refl _, ?_⟩
      intro pd hpd
      simp at hpd
      omega

theorem OnStop_result (shutdown : Golang.Context → Option Golang.Error) (now : Int)
    (ctx : Golang.Context) :
    (OnStop shutdown now ctx).shutdownCtx = Golang.WithTimeout now ctx (30 * Second)
      ∧ (OnStop shutdown now ctx).result
          = shutdown (Golang.WithTimeout now ctx (30 * Second)) := by
  unfold OnStop
  cases h : shutdown (Golang.WithTimeout now ctx (30 * Second)) <;> simp [h]

/-- C18: the `OnStop` hook that `NewEcho` appends to the lifecycle shuts the
server down under a deadline that is at most 30 seconds after the call and
never later than the deadline of the context it was given; it returns `nil`
when the shutdown succeeds and returns the shutdown's error unchanged when it
fails. -/
theorem OnStop_bounded_shutdown {M : Type} (p : EchoParams M) :
    ∃ hook, NewEchoHook p = .ok hook ∧
      ∀ (shutdown : Golang.Context → Option Golang.Error) (now : Int) (ctx : Golang.Context),
        (∃ d, (hook.OnStop shutdown now ctx).shutdownCtx.deadline = some d
            ∧ d ≤ now + 30 * 1000000000
            ∧ ∀ pd, ctx.deadline = some pd → d ≤ pd)
          ∧ (hook.OnStop shutdown now ctx).result
              = shutdown (hook.OnStop shutdown now ctx).shutdownCtx := by
  obtain ⟨e, sc, _, _, hh⟩ := NewEchoHook_eq p
  refine ⟨_, hh, ?_⟩
  intro shutdown now ctx
  obtain ⟨h1, h2⟩ := OnStop_result shutdown now ctx
  obtain ⟨d, hd, hle, hp⟩ := WithTimeout_deadline now (30 * Second) ctx
  refine ⟨⟨d, ?_, ?_, hp⟩, ?_⟩
  · show (OnStop shutdown now ctx).shutdownCtx.deadline = some d
    rw [h1, hd]
  · have : (30 : Int) * Second = 30 * 1000000000 := by decide
    omega
  · show (OnStop shutdown now ctx).result = shutdown (OnStop shutdown now ctx).shutdownCtx
    rw [h2, h1]

/-- C18, on a concrete input: called at time 0 with a context that expires
after 10 s and a shutdown that fails, the hook shuts down under a deadline of
at most 10 s and returns that failure. -/
theorem OnStop_bounded_shutdown_witness :
    ∃ hook, NewEchoHook Examples.noContribution = .ok hook
      ∧ (∃ d, (hook.OnStop (fun _ => some (.other "deadline exceeded")) 0
            ⟨some 10000000000⟩).shutdownCtx.deadline = some d ∧ d ≤ 10000000000)
      ∧ (hook.OnStop (fun _ => some (.other "deadline exceeded")) 0
            ⟨some 10000000000⟩).result = some (.other "deadline exceeded") := by
  obtain ⟨hook, hh, h⟩ := OnStop_bounded_shutdown Examples.noContribution
  obtain ⟨⟨d, hd, _, hp⟩, hr⟩ :=
    h (fun _ => some (.other "deadline exceeded")) 0 ⟨some 10000000000⟩
  exact ⟨hook, hh, ⟨d, hd, hp _ rfl⟩, hr⟩

end FxEcho

namespace FxGorm

/-! ## Pool configuration without a connection -/

/-- C19: for every `DatabaseManager` that has no open connection and every
`PoolConfig` `c`, `SetPoolConfig(c)` returns an error, takes no step and leaves
the manager (so its configuration) unchanged, so `GetPoolConfig` returns the
same value before and after the call; `GetPoolStats` likewise returns an
error. -/
theorem SetPoolConfig_not_connected (d : Driver) (stats : Nat → DBStats) (dm : DatabaseManager)
    (c : PoolConfig) (h : dm.db = none) :
    (dm.SetPoolConfig d c).2.1 = some "database not connected"
      ∧ (dm.SetPoolConfig d c).1 = dm
      ∧ (dm.SetPoolConfig d c).2.2 = []
      ∧ (dm.SetPoolConfig d c).1.GetPoolConfig = dm.GetPoolConfig
      ∧ dm.GetPoolStats d stats = .error "database not connected" := by
  unfold DatabaseManager.SetPoolConfig DatabaseManager.GetPoolStats
  simp [h]

/-- C19, on a concrete input: a manager that was never connected, asked for
5 idle and 20 open connections. -/
theorem SetPoolConfig_not_connected_witness :
    Examples.managerWithoutHost.db = none
      ∧ (Examples.managerWithoutHost.SetPoolConfig Examples.acceptingDriver ⟨5, 20, 0, 0⟩).2.1
          = some "database not connected"
      ∧ (Examples.managerWithoutHost.SetPoolConfig Examples.acceptingDriver
            ⟨5, 20, 0, 0⟩).1.GetPoolConfig
          = Examples.managerWithoutHost.GetPoolConfig
      ∧ Examples.managerWithoutHost.GetPoolStats Examples.acceptingDriver Examples.zeroStats
          = .error "database not connected" :=
  have h := SetPoolConfig_not_connected Examples.acceptingDriver Examples.zeroStats
    Examples.managerWithoutHost ⟨5, 20, 0, 0⟩ rfl
  ⟨rfl, h.1, h.2.2.2.1, h.2.2.2.2⟩

end FxGorm

namespace FxSupertoken

/-! ## `NewSuperTokensConfig` -/

/-- C20: for every configuration, `NewSuperTokensConfig` returns no error
and a config whose APIBasePath, WebBasePath, AppName, APIDomain and
WebsiteDomain each equal the configured value when it is non-empty and
otherwise the defaults "/api/auth", "/api/auth", "YourApp",
"http://localhost:8080" and "http://localhost:3000", while ConnectionURI,
ConnectionAPIKey, EmailHost, EmailPassword and Email equal the configured
values unchanged. -/
theorem NewSuperTokensConfig_defaults (config : FxConfig.Config) :
    NewSuperTokensConfig config
      = .ok
          { ConnectionURI := config.Accessor.GetString "supertokens.connection_uri"
            ConnectionAPIKey := config.Accessor.GetString "supertokens.connection_api_key"
            EmailHost := config.Accessor.GetString "supertokens.email.host"
            EmailPassword := config.Accessor.GetString "supertokens.email.password"
            Email := config.Accessor.GetString "supertokens.email"
            APIBasePath :=
              if config.Accessor.GetString "supertokens.api_base_path" = "" then "/api/auth"
              else config.Accessor.GetString "supertokens.api_base_path"
            WebBasePath :=
              if config.Accessor.GetString "supertokens.web_base_path" = "" then "/api/auth"
              else config.Accessor.GetString "supertokens.web_base_path"
            AppName :=
              if config.Accessor.GetString "supertokens.app_name" = "" then "YourApp"
              else config.Accessor.GetString "supertokens.app_name"
            APIDomain :=
              if config.Accessor.GetString "supertokens.api_domain" = "" then
                "http://localhost:8080"
              else config.Accessor.GetString "supertokens.api_domain"
            WebsiteDomain :=
              if config.Accessor.GetString "supertokens.website_domain" = "" then
                "http://localhost:3000"
              else config.Accessor.GetString "supertokens.website_domain" } := by
  unfold NewSuperTokensConfig
  by_cases h1 : config.Accessor.GetString "supertokens.api_base_path" = "" <;>
    by_cases h2 : config.Accessor.GetString "supertokens.web_base_path" = "" <;>
    by_cases h3 : config.Accessor.GetString "supertokens.app_name" = "" <;>
    by_cases h4 : config.Accessor.GetString "supertokens.api_domain" = "" <;>
    by_cases h5 : config.Accessor.GetString "supertokens.website_domain" = "" <;>
    simp [h1, h2, h3, h4, h5]

end FxSupertoken

namespace FxGorm

/-! ## Validation, DSN and the two defaulting paths -/

/-- C23: for every `GormConfig` on which `Validate` returns no error,
`buildDSN` applied to the configuration as `Validate` left it (with an empty
type replaced by postgres) also returns no error. -/
theorem buildDSN_ok_of_Validate_ok (gc : GormConfig) (h : gc.Validate.2 = none) :
    ∃ dsn, gc.Validate.1.buildDSN = .ok dsn := by
  have hpm : PostgreSQL ≠ MySQL := by decide
  have hps : PostgreSQL ≠ SQLite := by decide
  have hpv : PostgreSQL ≠ SQLServer := by decide
  have hms : MySQL ≠ SQLite := by decide
  have hmv : MySQL ≠ SQLServer := by decide
  have hsv : SQLite ≠ SQLServer := by decide
  have hpe : PostgreSQL ≠ "" := by decide
  obtain ⟨⟨t, host, port, user, pw, dbname, ssl, cs, pt, loc, file⟩, pool, log, dbg⟩ := gc
  by_cases ht : t = ""
  · subst ht
    by_cases h1 : host = "" <;> by_cases h2 : user = "" <;> by_cases h3 : dbname = "" <;>
      simp [GormConfig.Validate, h1, h2, h3, hps] at h ⊢
    simp [GormConfig.buildDSN]
  · by_cases hp : t = PostgreSQL
    · subst hp
      by_cases h1 : host = "" <;> by_cases h2 : user = "" <;> by_cases h3 : dbname = "" <;>
        simp [GormConfig.Validate, ht, h1, h2, h3, hps] at h ⊢
      simp [GormConfig.buildDSN]
    · by_cases hm : t = MySQL
      · subst hm
        by_cases h1 : host = "" <;> by_cases h2 : user = "" <;> by_cases h3 : dbname = "" <;>
          simp [GormConfig.Validate, ht, h1, h2, h3, hpm.symm, hms] at h ⊢
        simp [GormConfig.buildDSN, hpm.symm]
      · by_cases hv : t = SQLServer
        · subst hv
          by_cases h1 : host = "" <;> by_cases h2 : user = "" <;> by_cases h3 : dbname = "" <;>
            simp [GormConfig.Validate, ht, h1, h2, h3, hpv.symm, hmv.symm, hsv.symm] at h ⊢
          simp [GormConfig.buildDSN, hpv.symm, hmv.symm, hsv.symm]
        · by_cases hs : t = SQLite
          · subst hs
            by_cases h4 : file = "" <;>
              simp [GormConfig.Validate, ht, h4, hps.symm, hms.symm, hsv] at h ⊢
            simp [GormConfig.buildDSN, hps.symm, hms.symm, h4]
          · simp [GormConfig.Validate, ht, hp, hm, hv, hs] at h

/-- C23, on a concrete input: the postgres configuration without a type
passes `Validate` and its DSN is built. -/
theorem buildDSN_ok_of_Validate_ok_witness :
    Examples.untypedPostgres.Validate.2 = none
      ∧ ∃ dsn, Examples.untypedPostgres.Validate.1.buildDSN = .ok dsn :=
  ⟨by decide, buildDSN_ok_of_Validate_ok Examples.untypedPostgres (by decide)⟩

end FxGorm

namespace FxGorm

/-- Where the code agrees with C24: for a MySQL configuration whose base
`user:password@tcp(host:port)/dbname` contains no question mark, `buildDSN`
returns the base followed by the present parameters, the first introduced by
`?` and each later one by `&`. -/
theorem buildDSN_mysql_parameters (gc : GormConfig) (ht : gc.Database.DbType = MySQL)
    (hq : '?' ∉ (mysqlBase gc).toList) :
    gc.buildDSN = .ok (withParameters (mysqlBase gc) (mysqlParameters gc)) := by
  have hne : MySQL ≠ PostgreSQL := by decide
  have e1 : ∀ a b : String, a ++ "?" ++ ("charset=" ++ b) = a ++ "?charset=" ++ b := by
    intro a b
    have : "?charset=" = "?" ++ "charset=" := by decide
    rw [this]
    simp only [String.append_assoc]
  have e2 : ∀ a : String, a ++ "&" ++ "parseTime=true" = a ++ "&parseTime=true" := by
    intro a
    have : "&parseTime=true" = "&" ++ "parseTime=true" := by decide
    rw [this]
    simp only [String.append_assoc]
  have e3 : ∀ a : String, a ++ "?" ++ "parseTime=true" = a ++ "?parseTime=true" := by
    intro a
    have : "?parseTime=true" = "?" ++ "parseTime=true" := by decide
    rw [this]
    simp only [String.append_assoc]
  have e4 : ∀ a b : String, a ++ "&" ++ ("loc=" ++ b) = a ++ "&loc=" ++ b := by
    intro a b
    have : "&loc=" = "&" ++ "loc=" := by decide
    rw [this]
    simp only [String.append_assoc]
  have e5 : ∀ a b : String, a ++ "?" ++ ("loc=" ++ b) = a ++ "?loc=" ++ b := by
    intro a b
    have : "?loc=" = "?" ++ "loc=" := by decide
    rw [this]
    simp only [String.append_assoc]
  unfold GormConfig.buildDSN
  rw [if_neg (by rw [ht]; exact hne), if_pos ht]
  change Except.ok _ = Except.ok (withParameters (mysqlBase gc) (mysqlParameters gc))
  apply congrArg
  unfold mysqlParameters
  have hq2 : '?' ∉ (gc.Database.User ++ ":" ++ gc.Database.Password ++ "@tcp("
      ++ gc.Database.Host ++ ":" ++ toString gc.Database.Port ++ ")/"
      ++ gc.Database.DBName).toList := hq
  by_cases h1 : gc.Database.Charset = "" <;> by_cases h2 : gc.Database.ParseTime = true <;>
    by_cases h3 : gc.Database.Loc = ""
  · simp [h1, h2, h3, withParameters, mysqlBase, e3]
  · simp [h1, h2, h3, withParameters, mysqlBase, e3, e4]
  · simp [h1, h2, h3, withParameters, mysqlBase]
  · simp at hq2
    simp [h1, h2, h3, withParameters, mysqlBase, e5]
    intro hcontra
    exact absurd hcontra (by simpa using hq2)
  · simp [h1, h2, h3, withParameters, mysqlBase, e1, e2]
  · simp [h1, h2, h3, withParameters, mysqlBase, e1, e2, e4]
  · simp [h1, h2, h3, withParameters, mysqlBase, e1]
  · simp [h1, h2, h3, withParameters, mysqlBase, e1, e4]

end FxGorm

namespace FxGorm

/-- C24 fails on the code: for the MySQL configuration with password `p?ss`,
no charset, no parseTime and location `UTC`, the only parameter is introduced
by `&`, because the test for an earlier parameter looks for a question mark
in the whole DSN, base included; the DSN of the claim has `?loc=UTC`. -/
theorem buildDSN_mysql_loc_after_question_mark_in_base :
    Examples.mysqlQuestionMark.Database.DbType = MySQL
      ∧ Examples.mysqlQuestionMark.buildDSN
          = .ok "root:p?ss@tcp(localhost:3306)/app&loc=UTC"
      ∧ withParameters (mysqlBase Examples.mysqlQuestionMark)
            (mysqlParameters Examples.mysqlQuestionMark)
          = "root:p?ss@tcp(localhost:3306)/app?loc=UTC" := by
  refine ⟨rfl, ?_, ?_⟩
  · rfl
  · decide

/-- The DSN of a MySQL configuration with the three parameters. -/
theorem buildDSN_mysql_all_parameters :
    Examples.mysqlAllParameters.buildDSN
      = .ok "root:secret@tcp(localhost:3306)/app?charset=utf8mb4&parseTime=true&loc=Local" := by
  rw [buildDSN_mysql_parameters Examples.mysqlAllParameters rfl (by decide)]
  apply congrArg
  decide

/-- C29: for every Host, User, Password, DBName, Port and SSLMode,
`Config.PostgresDSN` on a `Config` with those database fields returns the same
string as `GormConfig.buildDSN` on a postgres `GormConfig` with the same
fields, namely "host=H user=U password=P dbname=D port=N sslmode=S" with the
port in decimal. -/
theorem PostgresDSN_eq_buildDSN (c : FxConfig.Config) (gc : GormConfig)
    (ht : gc.Database.DbType = PostgreSQL)
    (hh : gc.Database.Host = c.Database.Host) (hu : gc.Database.User = c.Database.User)
    (hp : gc.Database.Password = c.Database.Password)
    (hd : gc.Database.DBName = c.Database.DBName) (hn : gc.Database.Port = c.Database.Port)
    (hs : gc.Database.SSLMode = c.Database.SSLMode) :
    gc.buildDSN = .ok c.PostgresDSN
      ∧ c.PostgresDSN
          = "host=" ++ c.Database.Host ++ " user=" ++ c.Database.User ++ " password="
            ++ c.Database.Password ++ " dbname=" ++ c.Database.DBName ++ " port="
            ++ toString c.Database.Port ++ " sslmode=" ++ c.Database.SSLMode := by
  refine ⟨?_, rfl⟩
  unfold GormConfig.buildDSN FxConfig.Config.PostgresDSN
  rw [if_pos ht, hh, hu, hp, hd, hn, hs]

/-- C29, on a concrete input: the configuration built by `NewGormConfig`
from an application configuration that selects postgres. -/
theorem PostgresDSN_eq_buildDSN_witness :
    (NewGormConfig Examples.postgresConfig).buildDSN
        = .ok Examples.postgresConfig.PostgresDSN
      ∧ Examples.postgresConfig.PostgresDSN
          = "host=localhost user=postgres password=password dbname=testdb port=5432 sslmode=disable" := by
  have h := PostgresDSN_eq_buildDSN Examples.postgresConfig
    (NewGormConfig Examples.postgresConfig) rfl rfl rfl rfl rfl rfl rfl
  exact ⟨h.1, by decide⟩

/-- The configuration that `NewGormDB` opens is the one read by
`NewGormConfig` with the log defaults of `NewGormDB.logDefaults`. -/
theorem NewGormDB_opens_logDefaults (d : Driver) (p : Params) :
    (NewGormDB d p).2.head?
      = some (Step.openDatabase (NewGormDB.logDefaults (NewGormConfig p.Config))) := by
  obtain ⟨rest, hrest⟩ := openDatabase_steps d (NewGormDB.logDefaults (NewGormConfig p.Config))
  unfold NewGormDB
  show (match (NewGormDB.logDefaults (NewGormConfig p.Config)).openDatabase d with
    | (.error err, steps) =>
      ((.error ("failed to open database: " ++ err) : Except String Nat), steps)
    | (.ok db, steps) => _).2.head? = _
  cases ho : (NewGormDB.logDefaults (NewGormConfig p.Config)).openDatabase d with
  | mk r steps =>
    rw [ho] at hrest
    simp only at hrest
    subst hrest
    cases r with
    | error err => simp
    | ok db =>
      simp only
      split
      · simp
      · split
        · simp
        · split <;> simp

theorem SetDefaults_mk (db : DatabaseConfig) (a b c d l t : Int) (co ig dbg : Bool) :
    (GormConfig.mk db ⟨a, b, c, d⟩ ⟨l, t, co, ig⟩ dbg).SetDefaults
      = { Database := db
          Pool := ⟨if a = 0 then 10 else a, if b = 0 then 100 else b,
            if c = 0 then Hour else c, if d = 0 then Minute * 10 else d⟩
          Log := ⟨if l = 0 then loggerInfo else l,
            if t = 0 then FxEcho.Second * 5 else t, co, ig⟩
          Debug := dbg } := by
  unfold GormConfig.SetDefaults
  by_cases ha : a = 0 <;> by_cases hb : b = 0 <;> by_cases hc : c = 0 <;>
    by_cases hd : d = 0 <;> by_cases hl : l = 0 <;> by_cases ht : t = 0 <;>
    simp [ha, hb, hc, hd, hl, ht]

/-- The log defaulting of `NewGormDB` followed by the pool defaulting of
`configureConnectionPool` leaves the configuration that `SetDefaults`
produces. -/
theorem logDefaults_then_pool (d : Driver) (gc : GormConfig) (db sqlDB : Nat)
    (h : d.sqlDB db = .ok sqlDB) :
    ((NewGormDB.logDefaults gc).configureConnectionPool d db).1 = gc.SetDefaults := by
  obtain ⟨dbc, ⟨a, b, c, e⟩, ⟨l, t, co, ig⟩, dbg⟩ := gc
  rw [SetDefaults_mk]
  unfold GormConfig.configureConnectionPool NewGormDB.logDefaults
  rw [h]
  by_cases ha : a = 0 <;> by_cases hb : b = 0 <;> by_cases hc : c = 0 <;>
    by_cases he : e = 0 <;> by_cases hl : l = 0 <;> by_cases ht : t = 0 <;>
    simp [ha, hb, hc, he, hl, ht]

theorem logDefaults_Log (gc : GormConfig) :
    (NewGormDB.logDefaults gc).Log = gc.SetDefaults.Log := by
  obtain ⟨dbc, ⟨a, b, c, e⟩, ⟨l, t, co, ig⟩, dbg⟩ := gc
  rw [SetDefaults_mk]
  unfold NewGormDB.logDefaults
  by_cases hl : l = 0 <;> by_cases ht : t = 0 <;> simp [hl, ht]

theorem SetDefaults_idempotent (gc : GormConfig) : gc.SetDefaults.SetDefaults = gc.SetDefaults := by
  have h1 : Hour ≠ 0 := by decide
  have h2 : Minute * 10 ≠ 0 := by decide
  have h3 : FxEcho.Second * 5 ≠ 0 := by decide
  have h4 : loggerInfo ≠ 0 := by decide
  obtain ⟨dbc, ⟨a, b, c, e⟩, ⟨l, t, co, ig⟩, dbg⟩ := gc
  rw [SetDefaults_mk, SetDefaults_mk]
  by_cases ha : a = 0 <;> by_cases hb : b = 0 <;> by_cases hc : c = 0 <;>
    by_cases he : e = 0 <;> by_cases hl : l = 0 <;> by_cases ht : t = 0 <;>
    simp [ha, hb, hc, he, hl, ht, h1, h2, h3, h4]

theorem configureConnectionPool_ok (d : Driver) (g : GormConfig) (db sqlDB : Nat)
    (h : d.sqlDB db = .ok sqlDB) :
    g.configureConnectionPool d db
      = ((g.configureConnectionPool d db).1, none,
          [Step.setPool sqlDB (g.configureConnectionPool d db).1.Pool]) := by
  unfold GormConfig.configureConnectionPool
  rw [h]

/-- The pool that `NewGormDB` sets on the handle, once the database is open
and `db.DB()` has returned the handle, is the one that `SetDefaults`
produces. -/
theorem NewGormDB_sets_default_pool (d : Driver) (p : Params) (db sqlDB : Nat)
    (hopen : ((NewGormDB.logDefaults (NewGormConfig p.Config)).openDatabase d).1 = .ok db)
    (h : d.sqlDB db = .ok sqlDB) :
    Step.setPool sqlDB (NewGormConfig p.Config).SetDefaults.Pool ∈ (NewGormDB d p).2 := by
  have hpool := configureConnectionPool_ok d (NewGormDB.logDefaults (NewGormConfig p.Config))
    db sqlDB h
  rw [logDefaults_then_pool d (NewGormConfig p.Config) db sqlDB h] at hpool
  show Step.setPool sqlDB (NewGormConfig p.Config).SetDefaults.Pool
    ∈ (match (NewGormDB.logDefaults (NewGormConfig p.Config)).openDatabase d with
      | (.error err, steps) =>
        ((.error ("failed to open database: " ++ err) : Except String Nat), steps)
      | (.ok db, steps) =>
        match (NewGormDB.logDefaults (NewGormConfig p.Config)).configureConnectionPool d db
          with
        | (_, some err, steps2) =>
          (.error ("failed to configure connection pool: " ++ err), steps ++ steps2)
        | (_, none, steps2) =>
          match d.sqlDB db with
          | .error err =>
            (.error ("failed to get underlying sql.DB: " ++ err), steps ++ steps2)
          | .ok sqlDB =>
            match d.ping sqlDB with
            | some err =>
              (.error ("failed to ping database: " ++ err),
                steps ++ steps2 ++ [Step.ping sqlDB])
            | none => (.ok db, steps ++ steps2 ++ [Step.ping sqlDB])).2
  cases ho : (NewGormDB.logDefaults (NewGormConfig p.Config)).openDatabase d with
  | mk r steps =>
    rw [ho] at hopen
    simp only at hopen
    subst hopen
    simp only [hpool, h]
    cases d.ping sqlDB <;> simp

/-- C30: the two defaulting paths agree. `NewGormDB` opens the database
with the configuration it read and its own log defaulting, and, once the
database is open and `db.DB()` has returned the handle, sets the pool that
`configureConnectionPool` defaulted; the Log and Pool values so produced equal
those produced by `SetDefaults`. For every `GormConfig`, the log defaulting
of `NewGormDB` followed by the pool defaulting of `configureConnectionPool`
gives the Log and Pool values, in fact the whole configuration, that
`SetDefaults` gives, and applying `SetDefaults` a second time changes
nothing. -/
theorem defaulting_paths_agree (d : Driver) (p : Params) (gc : GormConfig) (db sqlDB : Nat)
    (hopen : ((NewGormDB.logDefaults (NewGormConfig p.Config)).openDatabase d).1 = .ok db)
    (h : d.sqlDB db = .ok sqlDB) :
    (NewGormDB d p).2.head?
        = some (Step.openDatabase (NewGormDB.logDefaults (NewGormConfig p.Config)))
      ∧ (NewGormDB.logDefaults (NewGormConfig p.Config)).Log
          = (NewGormConfig p.Config).SetDefaults.Log
      ∧ Step.setPool sqlDB (NewGormConfig p.Config).SetDefaults.Pool ∈ (NewGormDB d p).2
      ∧ ((NewGormDB.logDefaults gc).configureConnectionPool d db).1.Log = gc.SetDefaults.Log
      ∧ ((NewGormDB.logDefaults gc).configureConnectionPool d db).1.Pool = gc.SetDefaults.Pool
      ∧ ((NewGormDB.logDefaults gc).configureConnectionPool d db).1 = gc.SetDefaults
      ∧ gc.SetDefaults.SetDefaults = gc.SetDefaults := by
  have key := logDefaults_then_pool d gc db sqlDB h
  exact ⟨NewGormDB_opens_logDefaults d p, logDefaults_Log _,
    NewGormDB_sets_default_pool d p db sqlDB hopen h, by rw [key], by rw [key], key,
    SetDefaults_idempotent gc⟩

/-- C30, on a concrete input: `NewGormDB` on the mysql configuration without
any log or pool setting, against the server that admits the connection,
opens with the default log values and sets the default pool. -/
theorem defaulting_paths_agree_witness :
    (NewGormDB Examples.acceptingDriver ⟨Examples.mysqlNoDatabase⟩).2
        = [Step.openDatabase
            { (NewGormConfig Examples.mysqlNoDatabase) with
              Log := ⟨loggerInfo, FxEcho.Second * 5, false, false⟩ },
          Step.gormOpen "mysql" "root:secret@tcp(localhost:3306)/",
          Step.setPool 2 ⟨10, 100, Hour, Minute * 10⟩, Step.ping 2]
      ∧ Step.setPool 2 (NewGormConfig Examples.mysqlNoDatabase).SetDefaults.Pool
          ∈ (NewGormDB Examples.acceptingDriver ⟨Examples.mysqlNoDatabase⟩).2
      ∧ ((NewGormDB.logDefaults Examples.untypedPostgres).configureConnectionPool
          Examples.acceptingDriver 1).1 = Examples.untypedPostgres.SetDefaults
      ∧ Examples.untypedPostgres.SetDefaults.Pool = ⟨10, 100, Hour, Minute * 10⟩
      ∧ Examples.untypedPostgres.SetDefaults.SetDefaults
          = Examples.untypedPostgres.SetDefaults :=
  have h := defaulting_paths_agree Examples.acceptingDriver ⟨Examples.mysqlNoDatabase⟩
    Examples.untypedPostgres 1 2 rfl rfl
  ⟨by decide, h.2.2.1, h.2.2.2.2.2.1, by decide, h.2.2.2.2.2.2⟩

end FxGorm

namespace Fx

/-! ## Collections -/

end Fx

namespace Fx

/-! ## Start with unwinding -/

/-- A start that fails at a component after the given ones started: the
hooks already started are stopped, most recent first, and the failure is
returned. -/
theorem startFrom_failure (ctx : Golang.Context) (err : Golang.Error) (failing : LifecycleHook)
    (rest : List LifecycleHook) (hfail : failing.OnStart ctx = some err) :
    ∀ (ok : List LifecycleHook) (index : Nat) (started : List (Nat × LifecycleHook)),
      (∀ hook ∈ ok, hook.OnStart ctx = none) →
      startFrom ctx index (ok ++ failing :: rest) started
        = (some err,
            (List.range ok.length).map (fun i => LifecycleCall.OnStart (index + i))
              ++ [LifecycleCall.OnStart (index + ok.length)]
              ++ ((List.range ok.length).reverse.map
                    (fun i => LifecycleCall.OnStop (index + i)))
              ++ started.map (fun x => LifecycleCall.OnStop x.1)) := by
  intro ok
  induction ok with
  | nil =>
    intro index started _
    simp [startFrom, hfail]
  | cons hook hooks ih =>
    intro index started hok
    have h0 : hook.OnStart ctx = none := hok hook (List.mem_cons_self _ _)
    have hrest : ∀ h ∈ hooks, h.OnStart ctx = none :=
      fun h hh => hok h (List.mem_cons_of_mem _ hh)
    have e := ih (index + 1) ((index, hook) :: started) hrest
    simp only [List.cons_append, startFrom, h0]
    rw [show hooks.append (failing :: rest) = hooks ++ failing :: rest from rfl, e]
    simp only [List.length_cons, List.range_succ_eq_map, List.map_cons, List.map_map,
      List.reverse_cons, List.map_append, List.map_reverse, List.append_assoc,
      List.cons_append, List.nil_append, List.singleton_append, Prod.mk.injEq, true_and]
    simp [Function.comp_def, Nat.add_assoc, Nat.add_comm 1]

/-- C22: when the application is started and the `OnStart` hook of
component M fails after components A and B started successfully, the `OnStop`
hooks of B and then A are invoked (reverse of the realized start order)
before the original error is returned to `serve`, and M's own `OnStop` hook,
like the hooks of the components after M, is never invoked. -/
theorem Start_unwinds_in_reverse (A B M : LifecycleHook) (rest : List LifecycleHook)
    (err : Golang.Error)
    (hA : A.OnStart Golang.Background = none) (hB : B.OnStart Golang.Background = none)
    (hM : M.OnStart Golang.Background = some err) :
    Start (A :: B :: M :: rest) Golang.Background
        = (some err, [.OnStart 0, .OnStart 1, .OnStart 2, .OnStop 1, .OnStop 0])
      ∧ ApiRest.serveStart (A :: B :: M :: rest)
        = (.fatal "Failed to start application:" err,
            [.OnStart 0, .OnStart 1, .OnStart 2, .OnStop 1, .OnStop 0])
      ∧ LifecycleCall.OnStop 2 ∉ (ApiRest.serveStart (A :: B :: M :: rest)).2 := by
  have hs : Start (A :: B :: M :: rest) Golang.Background
      = (some err, [.OnStart 0, .OnStart 1, .OnStart 2, .OnStop 1, .OnStop 0]) := by
    have h := startFrom_failure Golang.Background err M rest hM [A, B] 0 []
      (by
        intro hook hmem
        simp at hmem
        rcases hmem with rfl | rfl
        · exact hA
        · exact hB)
    unfold Start
    simpa [List.range_succ] using h
  refine ⟨hs, ?_, ?_⟩
  · unfold ApiRest.serveStart
    rw [hs]
  · unfold ApiRest.serveStart
    rw [hs]
    simp

/-- C22, on a concrete input: two healthy components, then one whose start
fails, then another healthy one. -/
theorem Start_unwinds_in_reverse_witness :
    ApiRest.serveStart
        [Examples.healthyHook, Examples.healthyHook, Examples.failingHook,
          Examples.healthyHook]
      = (.fatal "Failed to start application:" (.other "bind failed"),
          [.OnStart 0, .OnStart 1, .OnStart 2, .OnStop 1, .OnStop 0]) :=
  (Start_unwinds_in_reverse Examples.healthyHook Examples.healthyHook Examples.failingHook
    [Examples.healthyHook] (.other "bind failed") rfl rfl rfl).2.1

end Fx

namespace FxSupertoken

/-! ## `SupertokenMiddleware` -/

/-- C25: for every request, `SupertokenMiddleware(next)` invokes `next` if
and only if the session lookup succeeds: when the lookup fails it responds
with status 401 and body {"error":"unauthorized"} and never calls `next`; when
it succeeds it stores the session under the context key "supertokensSession",
calls `next` once with that context and returns exactly what `next`
returns. -/
theorem SupertokenMiddleware_gates_next (getSession : String → Except Golang.Error Session)
    (next : Context → HandlerResult) (c : Context) :
    ((SupertokenMiddleware getSession next c).invoked ≠ []
        ↔ ∃ sess, getSession c.request = .ok sess)
      ∧ (∀ err, getSession c.request = .error err →
          SupertokenMiddleware getSession next c
            = ⟨[], ⟨some ⟨401, [("error", .str "unauthorized")]⟩, none⟩⟩)
      ∧ (∀ sess, getSession c.request = .ok sess →
          (SupertokenMiddleware getSession next c).invoked = [c.Set "supertokensSession" sess]
            ∧ (c.Set "supertokensSession" sess).Get "supertokensSession" = some sess
            ∧ (SupertokenMiddleware getSession next c).result
                = next (c.Set "supertokensSession" sess)) := by
  unfold SupertokenMiddleware
  cases h : getSession c.request with
  | error err => simp [h]
  | ok sess => simp [h, Context.Set, Context.Get, List.lookup]

/-- C25, on a concrete input: a request without session is answered 401 and
not passed on; the request `cookie` is passed on with its session. -/
theorem SupertokenMiddleware_gates_next_witness :
    SupertokenMiddleware Examples.cookieSession (fun _ => ⟨none, none⟩) ⟨"none", []⟩
        = ⟨[], ⟨some ⟨401, [("error", .str "unauthorized")]⟩, none⟩⟩
      ∧ (SupertokenMiddleware Examples.cookieSession (fun _ => ⟨none, none⟩)
            ⟨"cookie", []⟩).invoked
          = [⟨"cookie", [("supertokensSession", ⟨"session-1"⟩)]⟩] :=
  ⟨(SupertokenMiddleware_gates_next Examples.cookieSession (fun _ => ⟨none, none⟩)
      ⟨"none", []⟩).2.1 (.other "unauthorised") rfl,
    ((SupertokenMiddleware_gates_next Examples.cookieSession (fun _ => ⟨none, none⟩)
      ⟨"cookie", []⟩).2.2 ⟨"session-1"⟩ rfl).1⟩

end FxSupertoken

namespace ApiRest

/-! ## The user service -/

/-- What `CreateUser` does: it hands a user to `Create` exactly when both
lookups returned an error, of whatever kind; the user handed over has Role
"user" and IsActive true; when a lookup finds a user it returns an error and
hands nothing over. -/
theorem CreateUser_persists_iff_lookups_fail (db : Database) (createdAt updatedAt : Int)
    (email username password firstName lastName : String) :
    ((UserService.CreateUser db createdAt updatedAt email username password firstName
          lastName).2 ≠ []
        ↔ (∃ e1, UserRepository.GetByEmail db email = .error e1)
          ∧ ∃ e2, UserRepository.GetByUsername db username = .error e2)
      ∧ (∀ user ∈ (UserService.CreateUser db createdAt updatedAt email username password
            firstName lastName).2, user.Role = "user" ∧ user.IsActive = true)
      ∧ ((UserService.CreateUser db createdAt updatedAt email username password firstName
            lastName).2 = [] →
          ∃ err, (UserService.CreateUser db createdAt updatedAt email username password
            firstName lastName).1 = .error err) := by
  unfold UserService.CreateUser
  cases h1 : UserRepository.GetByEmail db email with
  | ok u => simp
  | error e1 =>
    cases h2 : UserRepository.GetByUsername db username with
    | ok u => simp
    | error e2 =>
      simp only
      split <;> simp

/-- C26 fails on the code: when the lookup by email fails with a connection
error, which is not "user not found", and the lookup by username finds
nothing, `CreateUser` does not return an error: it hands the user to `Create`
and returns the stored user. -/
theorem CreateUser_persists_after_failed_lookup :
    UserRepository.GetByEmail Examples.flakyDatabase "bob@example.org"
        = .error "connection refused"
      ∧ UserRepository.GetByUsername Examples.flakyDatabase "bob"
        = .error "user not found with username: bob"
      ∧ UserService.CreateUser Examples.flakyDatabase 1 2 "bob@example.org" "bob" "pw"
          "Bob" "B"
        = (.ok ⟨7, "bob@example.org", "bob", "pw", "Bob", "B", "user", true, 1, 2, none⟩,
            [⟨0, "bob@example.org", "bob", "pw", "Bob", "B", "user", true, 1, 2, none⟩]) :=
  ⟨rfl, rfl, rfl⟩

/-- C27: `UserService.ValidateUserCredentials` returns a user (and no
error) if and only if the lookup by email succeeds, that user is active, and
the password comparison against the stored hash succeeds; an unknown email
and a wrong password produce the identical error "invalid credentials", and
an inactive user is rejected whatever password is supplied. -/
theorem ValidateUserCredentials_accepts_iff (db : Database)
    (compare : String → String → Option String) (email password : String) :
    (∀ user, UserService.ValidateUserCredentials db compare email password = .ok user
        ↔ (UserRepository.GetByEmail db email = .ok user ∧ user.IsActive = true
            ∧ compare user.Password password = none))
      ∧ (∀ err, UserRepository.GetByEmail db email = .error err →
          UserService.ValidateUserCredentials db compare email password
            = .error "invalid credentials")
      ∧ (∀ user msg, UserRepository.GetByEmail db email = .ok user → user.IsActive = true →
          compare user.Password password = some msg →
          UserService.ValidateUserCredentials db compare email password
            = .error "invalid credentials")
      ∧ (∀ user, UserRepository.GetByEmail db email = .ok user → user.IsActive = false →
          ∀ supplied, UserService.ValidateUserCredentials db compare email supplied
            = .error "user account is deactivated") := by
  refine ⟨?_, ?_, ?_, ?_⟩
  · intro user
    constructor
    · intro hres
      unfold UserService.ValidateUserCredentials at hres
      cases h : UserRepository.GetByEmail db email with
      | error err => simp [h] at hres
      | ok u =>
        rw [h] at hres
        by_cases ha : u.IsActive = true
        · cases hc : compare u.Password password with
          | none =>
            simp [ha, hc] at hres
            subst hres
            exact ⟨rfl, ha, hc⟩
          | some msg => simp [ha, hc] at hres
        · simp [ha] at hres
    · rintro ⟨hu, ha, hc⟩
      unfold UserService.ValidateUserCredentials
      simp [hu, ha, hc]
  · intro err herr
    unfold UserService.ValidateUserCredentials
    simp [herr]
  · intro user msg hu ha hc
    unfold UserService.ValidateUserCredentials
    simp [hu, ha, hc]
  · intro user hu ha supplied
    unfold UserService.ValidateUserCredentials
    simp [hu, ha]

/-- C27, on a concrete input: for the stored, active user `alice` the right
password is accepted, and a wrong password and an unknown email are rejected
with the same error. -/
theorem ValidateUserCredentials_accepts_iff_witness :
    UserService.ValidateUserCredentials Examples.aliceDatabase Examples.compareSecret
        "alice@example.org" "secret" = .ok Examples.alice
      ∧ UserService.ValidateUserCredentials Examples.aliceDatabase Examples.compareSecret
        "alice@example.org" "guess" = .error "invalid credentials"
      ∧ UserService.ValidateUserCredentials Examples.aliceDatabase Examples.compareSecret
        "mallory@example.org" "secret" = .error "invalid credentials" :=
  ⟨((ValidateUserCredentials_accepts_iff Examples.aliceDatabase Examples.compareSecret
      "alice@example.org" "secret").1 Examples.alice).2 ⟨rfl, rfl, rfl⟩,
    (ValidateUserCredentials_accepts_iff Examples.aliceDatabase Examples.compareSecret
      "alice@example.org" "guess").2.2.1 Examples.alice
      "hashedPassword is not the hash of the given password" rfl rfl rfl,
    (ValidateUserCredentials_accepts_iff Examples.aliceDatabase Examples.compareSecret
      "mallory@example.org" "secret").2.1 "user not found with email: mallory@example.org"
      rfl⟩

/-- C28 fails on the code: the context that `serve` hands to `app.Stop` is
`context.WithTimeout(ctx, 30)`, which expires 30 nanoseconds after it is
created, far less than the 30 s that the `OnStop` hook of the server asks
for; even when the hook runs at the very instant the context is created, the
shutdown deadline it obtains is that of the caller, 30 ns away. -/
theorem stopContext_shorter_than_drain (now : Int)
    (shutdown : Golang.Context → Option Golang.Error) :
    (stopContext now).deadline = some (now + 30)
      ∧ (30 : Int) < 30 * FxEcho.Second
      ∧ (FxEcho.OnStop shutdown now (stopContext now)).shutdownCtx.deadline = some (now + 30)
      ∧ now + 30 < now + 30 * FxEcho.Second := by
  have h30 : (30 : Int) < 30 * FxEcho.Second := by decide
  have hd : (stopContext now).deadline = some (now + 30) := rfl
  refine ⟨hd, h30, ?_, by omega⟩
  rw [(FxEcho.OnStop_result shutdown now (stopContext now)).1]
  unfold Golang.WithTimeout
  rw [hd]
  simp only
  rw [if_pos (by omega)]

end ApiRest
